import Mathlib

/-!
Verification of the parking-app-datastore decision logic
(src/parking-app-api/src/index.ts), shallowly embedded in Lean.

Conventions:
* Instants (JavaScript `Date` values, `Date.now()`) are integers:
  milliseconds since the Unix epoch.
* SQLite `DATE(...)` values are day-aligned instants; `DATE(t)` is
  modelled by `dayFloor`.  Columns declared as dates (permit
  `valid_from`/`valid_until`, request dates) hold day-aligned values
  because the API writes them with `toISOString().split('T')[0]`.
* Fallible endpoints return `Except ApiError`; the error carries the
  HTTP status kind (400 validation, 404 not found, 409 conflict,
  500 storage).
* Generated identifiers (`crypto.randomUUID()`, ticket numbers) are
  passed as explicit parameters.
-/

namespace ParkingApp

def msPerDay : Int := 86400000

def msPerHour : Int := 3600000

/-- 5-minute grace period in milliseconds (`graceMinutes * 60 * 1000`,
index.ts:118-119). -/
def graceMs : Int := 5 * 60 * 1000

/-- SQLite `DATE(t)`: truncate an instant to midnight UTC of its day.
`%` on `Int` is `emod`, whose result is non-negative for the positive
modulus used here. -/
def dayFloor (t : Int) : Int := t - t % msPerDay

/-- `String.prototype.toUpperCase()`. -/
def toUpperStr (s : String) : String := ⟨s.data.map Char.toUpper⟩

/-- `String.prototype.toLowerCase()`. -/
def toLowerStr (s : String) : String := ⟨s.data.map Char.toLower⟩

/-- `validateLicensePlate` (index.ts:79-83): plate and state non-empty,
plate length between 2 and 8, and the uppercased plate matches
`/^[A-Z0-9]+$/`. -/
def validateLicensePlate (plate state : String) : Bool :=
  !(plate == "") && !(state == "") &&
  (decide (2 ≤ plate.length) && decide (plate.length ≤ 8)) &&
  (toUpperStr plate).data.all (fun c => c.isUpper || c.isDigit)

/-- The email regex `/^[^\s@]+@[^\s@]+\.[^\s@]+$/` (index.ts:166): some
non-space non-@ characters, one `@`, then a tail of non-space non-@
characters containing a `.` that is neither its first nor its last
character. -/
def emailValid (s : String) : Bool :=
  let l := s.data
  let before := l.takeWhile (fun c => !(c == '@'))
  match l.dropWhile (fun c => !(c == '@')) with
  | [] => false
  | _ :: tail =>
    !before.isEmpty && before.all (fun c => !c.isWhitespace) &&
    !tail.isEmpty && tail.all (fun c => !c.isWhitespace && !(c == '@')) &&
    ((tail.drop 1).dropLast.contains '.')

/-- `validateGPSCoordinates` (index.ts:110-114). -/
def validateGPSCoordinates (latitude longitude : Option Int) : Bool :=
  (match latitude with
   | none => true
   | some la => decide (-90 ≤ la) && decide (la ≤ 90)) &&
  (match longitude with
   | none => true
   | some lo => decide (-180 ≤ lo) && decide (lo ≤ 180))

/-- `isWithinGracePeriod` (index.ts:116-123):
`permitStart - graceMs <= now <= permitEnd + graceMs`. -/
def isWithinGracePeriod (permitStart permitEnd now : Int) : Bool :=
  decide (permitStart - graceMs ≤ now) && decide (now ≤ permitEnd + graceMs)

/-! ## Data model (database/schema.sql, database/types.ts) -/

structure Tenant where
  id : String
  email : String
  is_active : Bool
deriving DecidableEq

structure Vehicle where
  id : String
  tenant_id : String
  license_plate : String
  state_province : String
deriving DecidableEq

structure PermitType where
  id : String
  is_active : Bool
deriving DecidableEq

inductive ReqStatus
  | pending | under_review | approved | rejected | cancelled | expired
deriving DecidableEq

structure PermitRequestRow where
  id : String
  request_number : String
  tenant_id : String
  vehicle_id : String
  permit_type_id : String
  requested_start_date : Int
  requested_end_date : Int
  status : ReqStatus
  priority : Int
deriving DecidableEq

structure Permit where
  id : String
  permit_number : String
  permit_request_id : String
  tenant_id : String
  vehicle_id : String
  permit_type_id : String
  valid_from : Int
  valid_until : Int
  is_active : Bool
deriving DecidableEq

inductive ViolationStatus
  | issued | paid | disputed | voided
deriving DecidableEq

structure Violation where
  id : String
  ticket_number : String
  license_plate : String
  state_province : String
  issued_by : String
  violation_type : String
  violation_reason : String
  location : Option String
  gps_latitude : Option Int
  gps_longitude : Option Int
  fine_amount : Option Int
  notes : Option String
  status : ViolationStatus
  issued_at : Int
deriving DecidableEq

structure Warning where
  id : String
  warning_number : String
  license_plate : String
  state_province : String
  issued_by : String
  warning_type : String
  warning_reason : String
  issued_at : Int
deriving DecidableEq

structure Activity where
  id : String
  officer_id : String
  activity_type : String
  license_plate : String
  state_province : String
  performed_at : Int
  result : Option String
deriving DecidableEq

structure Officer where
  id : String
  is_active : Bool
deriving DecidableEq

/-- The JSON payload of an OfflineAction (its `action_data` column).  A
payload whose `JSON.parse` throws is modelled as `Option.none` at the
`OfflineAction` level. -/
structure ActionData where
  id : String
  ticket_number : String
  warning_number : String
  license_plate : String
  state_province : String
  issued_by : String
  officer_id : String
  violation_type : String
  violation_reason : String
  warning_type : String
  warning_reason : String
  location : Option String
  gps_latitude : Option Int
  gps_longitude : Option Int
  fine_amount : Option Int
  notes : Option String
  result : Option String
deriving DecidableEq

structure OfflineAction where
  id : String
  officer_id : String
  action_type : String
  action_data : Option ActionData
  performed_at : Int
  is_synced : Bool
  synced_at : Option Int
deriving DecidableEq

structure Store where
  tenants : List Tenant
  vehicles : List Vehicle
  permit_types : List PermitType
  permit_requests : List PermitRequestRow
  permits : List Permit
  violations : List Violation
  warnings : List Warning
  officers : List Officer
  activities : List Activity
  offline_actions : List OfflineAction
deriving DecidableEq

/-- `HTTPException` kinds raised by the API (status 400, 404, 409, 500). -/
inductive ApiError
  | validation | notFound | conflict | storage
deriving DecidableEq

/-! ## Sort orders used by the SQL queries -/

/-- ORDER BY valid_until DESC. -/
def permitGE (a b : Permit) : Prop := b.valid_until ≤ a.valid_until

instance : DecidableRel permitGE := fun a b => Int.decLe b.valid_until a.valid_until

instance : IsTotal Permit permitGE := ⟨fun a b => Int.le_total b.valid_until a.valid_until⟩

instance : IsTrans Permit permitGE := ⟨fun _ _ _ h1 h2 => le_trans h2 h1⟩

/-- ORDER BY issued_at DESC (violations). -/
def violationGE (a b : Violation) : Prop := b.issued_at ≤ a.issued_at

instance : DecidableRel violationGE := fun a b => Int.decLe b.issued_at a.issued_at

instance : IsTotal Violation violationGE := ⟨fun a b => Int.le_total b.issued_at a.issued_at⟩

instance : IsTrans Violation violationGE := ⟨fun _ _ _ h1 h2 => le_trans h2 h1⟩

/-- ORDER BY issued_at DESC (warnings). -/
def warningGE (a b : Warning) : Prop := b.issued_at ≤ a.issued_at

instance : DecidableRel warningGE := fun a b => Int.decLe b.issued_at a.issued_at

instance : IsTotal Warning warningGE := ⟨fun a b => Int.le_total b.issued_at a.issued_at⟩

instance : IsTrans Warning warningGE := ⟨fun _ _ _ h1 h2 => le_trans h2 h1⟩

/-- ORDER BY performed_at ASC (offline actions). -/
def actionLE (a b : OfflineAction) : Prop := a.performed_at ≤ b.performed_at

instance : DecidableRel actionLE := fun a b => Int.decLe a.performed_at b.performed_at

instance : IsTotal OfflineAction actionLE := ⟨fun a b => Int.le_total a.performed_at b.performed_at⟩

instance : IsTrans OfflineAction actionLE := ⟨fun _ _ _ h1 h2 => le_trans h1 h2⟩

/-! ## Authorization status resolver (index.ts:902-994) -/

/-- The activePermits query (index.ts:903-911) applied to a vehicle's
permits: `WHERE is_active = TRUE AND valid_until >= DATE('now')
ORDER BY valid_until DESC`.  `valid_until` is a stored date, so the
comparison is against `dayFloor now`. -/
def activePermitsFor (permits : List Permit) (now : Int) : List Permit :=
  List.insertionSort permitGE
    (permits.filter (fun p => p.is_active && decide (dayFloor now ≤ p.valid_until)))

/-- Violations query (index.ts:936-942): same plate and state, issued
in the trailing 30 days, not voided, newest first. -/
def recentViolationsFor (violations : List Violation) (plate state : String) (now : Int) :
    List Violation :=
  List.insertionSort violationGE
    (violations.filter (fun v =>
      v.license_plate == plate && v.state_province == state &&
      decide (dayFloor (now - 30 * msPerDay) ≤ v.issued_at) &&
      !(v.status == ViolationStatus.voided)))

/-- Warnings query (index.ts:945-950): same plate and state, issued in
the trailing 30 days (no status filter), newest first. -/
def recentWarningsFor (warnings : List Warning) (plate state : String) (now : Int) :
    List Warning :=
  List.insertionSort warningGE
    (warnings.filter (fun w =>
      w.license_plate == plate && w.state_province == state &&
      decide (dayFloor (now - 30 * msPerDay) ≤ w.issued_at)))

inductive CurrentStatus
  | authorized | grace_period | expired | no_permit
deriving DecidableEq

inductive RecAction
  | none | warning | ticket | verify_manually
deriving DecidableEq

structure ResolveResult where
  status : CurrentStatus
  validPermit : Option Permit
  gracePeriodActive : Bool
  gracePeriodExpires : Option Int
deriving DecidableEq

/-- `valid_from <= now <= valid_until` (index.ts:969-973). -/
def coversNow (p : Permit) (now : Int) : Bool :=
  decide (p.valid_from ≤ now) && decide (now ≤ p.valid_until)

/-- Status determination (index.ts:959-994) over the activePermits
query result.  `validPermit` is the local variable of the same name in
the source (the permit found by the authorized check). -/
def resolveStatus (activePermits : List Permit) (now : Int) : ResolveResult :=
  if activePermits.length = 0 then
    { status := .no_permit, validPermit := Option.none,
      gracePeriodActive := false, gracePeriodExpires := Option.none }
  else
    match activePermits.find? (fun p => coversNow p now) with
    | some p =>
      { status := .authorized, validPermit := some p,
        gracePeriodActive := false, gracePeriodExpires := Option.none }
    | none =>
      match activePermits.find? (fun p => isWithinGracePeriod p.valid_from p.valid_until now) with
      | some g =>
        { status := .grace_period, validPermit := Option.none,
          gracePeriodActive := true, gracePeriodExpires := some (g.valid_until + graceMs) }
      | none =>
        { status := .expired, validPermit := Option.none,
          gracePeriodActive := false, gracePeriodExpires := Option.none }

/-- The resolver applied to a vehicle's raw permit list: the
activePermits query followed by the status determination. -/
def lookupResolve (permits : List Permit) (now : Int) : ResolveResult :=
  resolveStatus (activePermitsFor permits now) now

/-- Recommended action (index.ts:996-1008). -/
def recommendedActionFor (status : CurrentStatus) (isRepeatOffender hasRecentWarnings : Bool) :
    RecAction :=
  if status = .authorized then .none
  else if status = .grace_period then .verify_manually
  else if isRepeatOffender then .ticket
  else if hasRecentWarnings then .ticket
  else .warning

structure EnforcementContext where
  recent_violations : List Violation
  recent_warnings : List Warning
  is_repeat_offender : Bool
  violation_count_30_days : Nat
  last_violation_date : Option Int
  grace_period_active : Bool
  grace_period_expires : Option Int
deriving DecidableEq

structure EnforcementLookupResult where
  license_plate : String
  is_registered : Bool
  active_permits : List Permit
  context : EnforcementContext
  current_status : CurrentStatus
  recommended_action : RecAction
deriving DecidableEq

/-- GET /api/enforcement/license-plates/:plate (index.ts:842-1053).
The optional scan-activity insert (`officer_id` query parameter) does
not affect the response and is omitted here. -/
def enforcementLookup (st : Store) (plateRaw stateRaw : String) (now : Int) :
    Except ApiError EnforcementLookupResult :=
  let plate := toUpperStr plateRaw
  let state := toUpperStr stateRaw
  if !validateLicensePlate plate state then .error .validation
  else
    match st.vehicles.find? (fun v =>
        v.license_plate == plate && v.state_province == state &&
        st.tenants.any (fun t => t.id == v.tenant_id && t.is_active)) with
    | none =>
      .ok { license_plate := plate, is_registered := false, active_permits := [],
            context := { recent_violations := [], recent_warnings := [],
                         is_repeat_offender := false, violation_count_30_days := 0,
                         last_violation_date := Option.none, grace_period_active := false,
                         grace_period_expires := Option.none },
            current_status := .no_permit, recommended_action := .ticket }
    | some v =>
      let actives := activePermitsFor (st.permits.filter (fun p => p.vehicle_id == v.id)) now
      let recentV := recentViolationsFor st.violations plate state now
      let recentW := recentWarningsFor st.warnings plate state now
      let isRepeat := decide (3 ≤ recentV.length)
      let res := resolveStatus actives now
      .ok { license_plate := plate, is_registered := true, active_permits := actives,
            context := { recent_violations := recentV, recent_warnings := recentW,
                         is_repeat_offender := isRepeat,
                         violation_count_30_days := recentV.length,
                         last_violation_date := recentV.head?.map (fun x => x.issued_at),
                         grace_period_active := res.gracePeriodActive,
                         grace_period_expires := res.gracePeriodExpires },
            current_status := res.status,
            recommended_action := recommendedActionFor res.status isRepeat
              (decide (0 < recentW.length)) }

/-! ## Duplicate-issuance guard and live ticket creation
(index.ts:125-135 and 1238-1350) -/

/-- `checkDuplicateTicket` (index.ts:125-135): a non-voided violation
for the same plate, state and officer with `issued_at > now - 1 hour`. -/
def checkDuplicateTicket (violations : List Violation)
    (licensePlate stateProvince issuedBy : String) (now : Int) : Bool :=
  violations.any (fun v =>
    v.license_plate == licensePlate && v.state_province == stateProvince &&
    v.issued_by == issuedBy && decide (now - msPerHour < v.issued_at) &&
    !(v.status == ViolationStatus.voided))

structure CreateViolationInput where
  license_plate : String
  state_province : String
  issued_by : String
  violation_type : String
  violation_reason : String
  location : Option String
  gps_latitude : Option Int
  gps_longitude : Option Int
  fine_amount : Option Int
  notes : Option String
deriving DecidableEq

/-- POST /api/enforcement/tickets (index.ts:1238-1350).  `newId`,
`newTicketNumber` and `newActivityId` stand for the generated
identifiers; evidence-photo URLs (an opaque JSON blob) are omitted. -/
def createTicket (st : Store) (b : CreateViolationInput) (now : Int)
    (newId newTicketNumber newActivityId : String) :
    Except ApiError (Violation × Store) :=
  if b.license_plate == "" || b.state_province == "" || b.issued_by == "" ||
     b.violation_type == "" || b.violation_reason == "" then .error .validation
  else
    let plate := toUpperStr b.license_plate
    let state := toUpperStr b.state_province
    if !validateLicensePlate plate state then .error .validation
    else if !validateGPSCoordinates b.gps_latitude b.gps_longitude then .error .validation
    else if !(st.officers.any (fun o => o.id == b.issued_by && o.is_active)) then
      .error .notFound
    else if checkDuplicateTicket st.violations plate state b.issued_by now then
      .error .conflict
    else
      let v : Violation :=
        { id := newId, ticket_number := newTicketNumber, license_plate := plate,
          state_province := state, issued_by := b.issued_by,
          violation_type := b.violation_type, violation_reason := b.violation_reason,
          location := b.location, gps_latitude := b.gps_latitude,
          gps_longitude := b.gps_longitude, fine_amount := b.fine_amount,
          notes := b.notes, status := .issued, issued_at := now }
      let act : Activity :=
        { id := newActivityId, officer_id := b.issued_by, activity_type := "ticket",
          license_plate := plate, state_province := state, performed_at := now,
          result := some "violation_issued" }
      .ok (v, { st with violations := v :: st.violations, activities := act :: st.activities })

/-! ## Permit lifecycle: POST /api/submit-permit-request
(index.ts:154-482) -/

structure CentralizedInput where
  first_name : String
  last_name : String
  email : String
  license_plate : String
  make : String
  model : String
  color : String
  state_province : String
  phone : Option String
  unit_number : Option String
  building_code : Option String
  full_address : Option String
  permit_type_id : Option String
  requested_start_date : Option Int
  requested_end_date : Option Int
  priority : Option Int
  notes : Option String
deriving DecidableEq

structure SubmitResult where
  auto_approved : Bool
  tenant_id : String
  vehicle_id : String
  permit_request_id : String
deriving DecidableEq

/-- Step 1 of the submission flow (index.ts:206-260): reuse the active
tenant with this email, or create one (the update of descriptive tenant
columns carries no modelled fields). -/
def resolveTenant (st : Store) (emailLower tenantNewId : String) : String × Store :=
  match st.tenants.find? (fun t => t.email == emailLower && t.is_active) with
  | some t => (t.id, st)
  | none =>
    (tenantNewId,
     { st with tenants := st.tenants ++
         [{ id := tenantNewId, email := emailLower, is_active := true }] })

/-- Step 2 of the submission flow (index.ts:262-325): reuse the vehicle
with this plate, state and tenant, or create one. -/
def resolveVehicle (st1 : Store) (plate state tenantId vehicleNewId : String) :
    String × Store :=
  match st1.vehicles.find? (fun v =>
      v.license_plate == plate && v.state_province == state &&
      v.tenant_id == tenantId) with
  | some v => (v.id, st1)
  | none =>
    (vehicleNewId,
     { st1 with vehicles := st1.vehicles ++
         [{ id := vehicleNewId, tenant_id := tenantId, license_plate := plate,
            state_province := state }] })

/-- Steps 3-4 of the submission flow (index.ts:327-421): insert the
permit request, and for the guest type auto-approve it and insert the
permit.  Request and permit dates are written with
`toISOString().split('T')[0]`, i.e. truncated to whole UTC days. -/
def finalizeRequest (st2 : Store) (tenantId vehicleId permitTypeId : String)
    (startDate endDate : Int) (priority : Int)
    (requestNewId requestNumber permitNewId permitNumber : String) :
    SubmitResult × Store :=
  let newReq : PermitRequestRow :=
    { id := requestNewId, request_number := requestNumber, tenant_id := tenantId,
      vehicle_id := vehicleId, permit_type_id := permitTypeId,
      requested_start_date := dayFloor startDate, requested_end_date := dayFloor endDate,
      status := .pending, priority := priority }
  let st3 := { st2 with permit_requests := st2.permit_requests ++ [newReq] }
  if permitTypeId == "guest" then
    let st4 := { st3 with permit_requests :=
      st3.permit_requests.map (fun (r : PermitRequestRow) =>
        if r.id == requestNewId then { r with status := ReqStatus.approved } else r) }
    let newPermit : Permit :=
      { id := permitNewId, permit_number := permitNumber,
        permit_request_id := requestNewId, tenant_id := tenantId,
        vehicle_id := vehicleId, permit_type_id := permitTypeId,
        valid_from := dayFloor startDate, valid_until := dayFloor endDate,
        is_active := true }
    ({ auto_approved := true, tenant_id := tenantId, vehicle_id := vehicleId,
       permit_request_id := requestNewId },
     { st4 with permits := st4.permits ++ [newPermit] })
  else
    ({ auto_approved := false, tenant_id := tenantId, vehicle_id := vehicleId,
       permit_request_id := requestNewId }, st3)

/-- POST /api/submit-permit-request (index.ts:154-482).  The tenant and
vehicle update branches only touch descriptive columns not carried in
the model.  Generated identifiers are parameters. -/
def submitPermitRequest (st : Store) (b : CentralizedInput) (now : Int)
    (tenantNewId vehicleNewId requestNewId requestNumber permitNewId permitNumber : String) :
    Except ApiError (SubmitResult × Store) :=
  if b.first_name == "" || b.last_name == "" || b.email == "" || b.license_plate == "" ||
     b.make == "" || b.model == "" || b.color == "" || b.state_province == "" then
    .error .validation
  else if !emailValid b.email then .error .validation
  else
    let plate := toUpperStr b.license_plate
    let state := toUpperStr b.state_province
    if !validateLicensePlate plate state then .error .validation
    else
      let permitTypeId := b.permit_type_id.getD "guest"
      let startDate := b.requested_start_date.getD now
      let endDate := b.requested_end_date.getD (now + 24 * msPerHour)
      if startDate < now - 24 * msPerHour then .error .validation
      else if endDate ≤ startDate then .error .validation
      else if !(st.permit_types.any (fun t => t.id == permitTypeId && t.is_active)) then
        .error .notFound
      else
        let tstep := resolveTenant st (toLowerStr b.email) tenantNewId
        let vstep := resolveVehicle tstep.2 plate state tstep.1 vehicleNewId
        .ok (finalizeRequest vstep.2 tstep.1 vstep.1 permitTypeId startDate endDate
          (b.priority.getD 1) requestNewId requestNumber permitNewId permitNumber)

/-! ## Offline sync (index.ts:2144-2346) -/

/-- POST /api/enforcement/sync/queue (index.ts:2145-2193). -/
def queueOfflineAction (st : Store) (officerId actionType : String)
    (actionData : Option ActionData) (performedAt : Int) (newId : String) :
    Except ApiError (String × Store) :=
  if officerId == "" || actionType == "" then .error .validation
  else
    let a : OfflineAction :=
      { id := newId, officer_id := officerId, action_type := actionType,
        action_data := actionData, performed_at := performedAt,
        is_synced := false, synced_at := Option.none }
    .ok (newId, { st with offline_actions := st.offline_actions ++ [a] })

/-- The unsynced-actions query (index.ts:2206-2210):
`WHERE officer_id = ? AND is_synced = FALSE ORDER BY performed_at ASC`. -/
def unsyncedBatch (st : Store) (officerId : String) : List OfflineAction :=
  List.insertionSort actionLE
    (st.offline_actions.filter (fun a => a.officer_id == officerId && !a.is_synced))

/-- One iteration body of the reconciliation switch
(index.ts:2221-2303).  `none` models a thrown exception (unparseable
payload, or an insert rejected by the primary-key constraint); `some
(store, ok)` models a completed switch, with `ok` false for the default
branch (unknown action type), which only increments the error count. -/
def applyAction (s : Store) (a : OfflineAction) : Option (Store × Bool) :=
  match a.action_data with
  | none => none
  | some d =>
    match a.action_type with
    | "ticket" =>
      if s.violations.any (fun v => v.id == d.id) then none
      else
        some ({ s with violations :=
          { id := d.id, ticket_number := d.ticket_number,
            license_plate := d.license_plate, state_province := d.state_province,
            issued_by := d.issued_by, violation_type := d.violation_type,
            violation_reason := d.violation_reason, location := d.location,
            gps_latitude := d.gps_latitude, gps_longitude := d.gps_longitude,
            fine_amount := d.fine_amount, notes := d.notes,
            status := .issued, issued_at := a.performed_at } :: s.violations }, true)
    | "warning" =>
      if s.warnings.any (fun w => w.id == d.id) then none
      else
        some ({ s with warnings :=
          { id := d.id, warning_number := d.warning_number,
            license_plate := d.license_plate, state_province := d.state_province,
            issued_by := d.issued_by, warning_type := d.warning_type,
            warning_reason := d.warning_reason,
            issued_at := a.performed_at } :: s.warnings }, true)
    | "scan" =>
      if s.activities.any (fun ac => ac.id == d.id) then none
      else
        some ({ s with activities :=
          { id := d.id, officer_id := d.officer_id,
            activity_type := "scan", license_plate := d.license_plate,
            state_province := d.state_province, performed_at := a.performed_at,
            result := d.result } :: s.activities }, true)
    | _ => some (s, false)

/-- The mark-as-synced UPDATE (index.ts:2306-2311). -/
def markSynced (s : Store) (actionId : String) (now : Int) : Store :=
  { s with offline_actions := s.offline_actions.map (fun x =>
      if x.id == actionId then { x with is_synced := true, synced_at := some now } else x) }

structure ActionResult where
  action_id : String
  action_type : String
  ok : Bool
deriving DecidableEq

structure BatchOut where
  store : Store
  details : List ActionResult
  success_count : Nat
  error_count : Nat
deriving DecidableEq

/-- The reconciliation loop (index.ts:2216-2328).  After a completed
switch the action is marked synced and pushed with status success (even
for the unknown-type default branch); a thrown exception is caught,
counted as an error and pushed with status error, without marking the
action synced. -/
def runBatch (now : Int) : Store → List OfflineAction → BatchOut
  | s, [] => { store := s, details := [], success_count := 0, error_count := 0 }
  | s, a :: rest =>
    match applyAction s a with
    | some (s1, ok) =>
      let s2 := markSynced s1 a.id now
      let out := runBatch now s2 rest
      { store := out.store,
        details := { action_id := a.id, action_type := a.action_type, ok := true } :: out.details,
        success_count := (if ok then 1 else 0) + out.success_count,
        error_count := (if ok then 0 else 1) + out.error_count }
    | none =>
      let out := runBatch now s rest
      { store := out.store,
        details := { action_id := a.id, action_type := a.action_type, ok := false } :: out.details,
        success_count := out.success_count,
        error_count := 1 + out.error_count }

structure SyncReport where
  total_processed : Nat
  success_count : Nat
  error_count : Nat
  details : List ActionResult
deriving DecidableEq

/-- POST /api/enforcement/sync/process (index.ts:2196-2346). -/
def processSync (st : Store) (officerId : String) (now : Int) : Store × SyncReport :=
  let batch := unsyncedBatch st officerId
  let out := runBatch now st batch
  (out.store,
   { total_processed := batch.length, success_count := out.success_count,
     error_count := out.error_count, details := out.details })

/-! ## Helper lemmas -/

theorem dayFloor_le (t : Int) : dayFloor t ≤ t := by
  have h : 0 ≤ t % msPerDay := Int.emod_nonneg t (by norm_num [msPerDay])
  simp only [dayFloor]
  omega

theorem mem_activePermitsFor {l : List Permit} {now : Int} {p : Permit} :
    p ∈ activePermitsFor l now ↔
      p ∈ l ∧ p.is_active = true ∧ dayFloor now ≤ p.valid_until := by
  simp [activePermitsFor, List.mem_filter, and_assoc]

theorem sorted_activePermitsFor (l : List Permit) (now : Int) :
    (activePermitsFor l now).Sorted permitGE := by
  unfold activePermitsFor
  exact List.sorted_insertionSort permitGE _

/-- In a list sorted by valid_until descending, the first permit found
covering `now` has the largest valid_until among all covering permits. -/
theorem find?_coversNow_max {now : Int} :
    ∀ {l : List Permit}, l.Sorted permitGE →
      ∀ {p : Permit}, l.find? (fun x => coversNow x now) = some p →
      ∀ q ∈ l, coversNow q now = true → q.valid_until ≤ p.valid_until := by
  intro l
  induction l with
  | nil =>
    intro _ p hp
    simp at hp
  | cons a t ih =>
    intro hs p hp q hq hcov
    rcases List.sorted_cons.mp hs with ⟨hall, hst⟩
    by_cases ha : coversNow a now = true
    · rw [List.find?_cons_of_pos (p := fun x => coversNow x now) t (by simpa using ha)] at hp
      injection hp with h
      subst h
      rcases List.mem_cons.mp hq with rfl | hqt
      · exact le_refl _
      · exact hall q hqt
    · rw [List.find?_cons_of_neg (p := fun x => coversNow x now) t (by simpa using ha)] at hp
      rcases List.mem_cons.mp hq with rfl | hqt
      · exact absurd hcov ha
      · exact ih hst hp q hqt hcov

/-! ## C1: resolver priority order -/

/-- C1.  For every list of permits and every instant `now`, the status
resolver checks statuses in priority order with first match winning: if
any active permit covers `now` the result is authorized, with the found
permit having the latest valid_until among all qualifying permits; only
otherwise is grace checked, so a vehicle simultaneously within the
5-minute grace window of one permit and past another permit's window
reports grace_period, never expired. -/
theorem C1_resolver_priority (permits : List Permit) (now : Int) :
    ((∃ p ∈ permits, p.is_active = true ∧ p.valid_from ≤ now ∧ now ≤ p.valid_until) →
      (lookupResolve permits now).status = CurrentStatus.authorized ∧
      ∃ q, (lookupResolve permits now).validPermit = some q ∧ q.is_active = true ∧
        q.valid_from ≤ now ∧ now ≤ q.valid_until ∧
        ∀ r ∈ permits, r.is_active = true → r.valid_from ≤ now → now ≤ r.valid_until →
          r.valid_until ≤ q.valid_until) ∧
    ((∀ p ∈ permits, p.is_active = true → ¬(p.valid_from ≤ now ∧ now ≤ p.valid_until)) →
      (∃ g ∈ permits, g.is_active = true ∧ dayFloor now ≤ g.valid_until ∧
        isWithinGracePeriod g.valid_from g.valid_until now = true) →
      (lookupResolve permits now).status = CurrentStatus.grace_period ∧
      (lookupResolve permits now).status ≠ CurrentStatus.expired) := by
  constructor
  · rintro ⟨p, hp, hact, h1, h2⟩
    have hmem : p ∈ activePermitsFor permits now :=
      mem_activePermitsFor.mpr ⟨hp, hact, le_trans (dayFloor_le now) h2⟩
    have hcov : coversNow p now = true := by simp [coversNow, h1, h2]
    have hsome : ((activePermitsFor permits now).find? (fun x => coversNow x now)).isSome :=
      List.find?_isSome.mpr ⟨p, hmem, hcov⟩
    obtain ⟨q, hq⟩ := Option.isSome_iff_exists.mp hsome
    have hlen : ¬((activePermitsFor permits now).length = 0) := by
      intro h0
      rw [List.length_eq_zero] at h0
      rw [h0] at hmem
      exact absurd hmem (List.not_mem_nil p)
    have hres : lookupResolve permits now =
        { status := .authorized, validPermit := some q,
          gracePeriodActive := false, gracePeriodExpires := Option.none } := by
      unfold lookupResolve resolveStatus
      rw [if_neg hlen, hq]
    have hqmem : q ∈ activePermitsFor permits now :=
      List.mem_of_find?_eq_some (p := fun x => coversNow x now) hq
    have hqcov : coversNow q now = true := by
      simpa using List.find?_some (p := fun x => coversNow x now) hq
    have hqa : q.is_active = true := (mem_activePermitsFor.mp hqmem).2.1
    have hqc : q.valid_from ≤ now ∧ now ≤ q.valid_until := by
      simpa [coversNow] using hqcov
    refine ⟨by rw [hres], q, by rw [hres], hqa, hqc.1, hqc.2, ?_⟩
    intro r hr hra hr1 hr2
    exact find?_coversNow_max (sorted_activePermitsFor permits now) hq r
      (mem_activePermitsFor.mpr ⟨hr, hra, le_trans (dayFloor_le now) hr2⟩)
      (by simp [coversNow, hr1, hr2])
  · rintro hnone ⟨g, hg, hga, hgd, hgr⟩
    have hmem : g ∈ activePermitsFor permits now := mem_activePermitsFor.mpr ⟨hg, hga, hgd⟩
    have hcovnone : (activePermitsFor permits now).find? (fun x => coversNow x now) =
        Option.none := by
      rw [List.find?_eq_none]
      intro x hx hcx
      rcases mem_activePermitsFor.mp hx with ⟨hxl, hxa, _⟩
      have hxc : x.valid_from ≤ now ∧ now ≤ x.valid_until := by
        simpa [coversNow] using hcx
      exact hnone x hxl hxa hxc
    have hsome : ((activePermitsFor permits now).find?
        (fun x => isWithinGracePeriod x.valid_from x.valid_until now)).isSome :=
      List.find?_isSome.mpr ⟨g, hmem, hgr⟩
    obtain ⟨q, hq⟩ := Option.isSome_iff_exists.mp hsome
    have hlen : ¬((activePermitsFor permits now).length = 0) := by
      intro h0
      rw [List.length_eq_zero] at h0
      rw [h0] at hmem
      exact absurd hmem (List.not_mem_nil g)
    have hres : lookupResolve permits now =
        { status := .grace_period, validPermit := Option.none, gracePeriodActive := true,
          gracePeriodExpires := some (q.valid_until + graceMs) } := by
      unfold lookupResolve resolveStatus
      rw [if_neg hlen, hcovnone, hq]
    constructor
    · rw [hres]
    · rw [hres]
      simp

def c1Grace : Permit :=
  { id := "p1", permit_number := "PM1", permit_request_id := "r1", tenant_id := "t1",
    vehicle_id := "v1", permit_type_id := "guest", valid_from := 90 * 86400000,
    valid_until := 100 * 86400000, is_active := true }

def c1Old : Permit :=
  { id := "p2", permit_number := "PM2", permit_request_id := "r2", tenant_id := "t1",
    vehicle_id := "v1", permit_type_id := "guest", valid_from := 50 * 86400000,
    valid_until := 98 * 86400000, is_active := true }

def c1Now : Int := 100 * 86400000 + 200000

/-- Witness for C1: a vehicle with one permit 3m20s inside its grace
window and another long-expired permit resolves grace_period, not
expired. -/
theorem C1_resolver_priority_witness :
    (lookupResolve [c1Grace, c1Old] c1Now).status = CurrentStatus.grace_period ∧
    (lookupResolve [c1Grace, c1Old] c1Now).status ≠ CurrentStatus.expired :=
  (C1_resolver_priority [c1Grace, c1Old] c1Now).2 (by decide) (by decide)

/-! ## C2: grace-period predicate and boundary -/

/-- C2.  The grace predicate holds exactly on the closed interval
`[start - 5min, end + 5min]`; a permit valid until `T` (a stored date,
hence day-aligned) resolves grace_period at `T + 4m59s` with
`gracePeriodExpires = T + 5min`, and expired at `T + 5m01s`. -/
theorem C2_grace_boundary :
    (∀ s e n : Int, isWithinGracePeriod s e n = true ↔ s - graceMs ≤ n ∧ n ≤ e + graceMs) ∧
    (∀ p : Permit, p.is_active = true → p.valid_from ≤ p.valid_until →
      p.valid_until % msPerDay = 0 →
      (lookupResolve [p] (p.valid_until + 299000)).status = CurrentStatus.grace_period ∧
      (lookupResolve [p] (p.valid_until + 299000)).gracePeriodExpires =
        some (p.valid_until + graceMs) ∧
      (lookupResolve [p] (p.valid_until + 301000)).status = CurrentStatus.expired) := by
  constructor
  · intro s e n
    simp [isWithinGracePeriod]
  · intro p hact hord hday
    simp only [msPerDay] at hday
    have hdf1 : dayFloor (p.valid_until + 299000) ≤ p.valid_until := by
      simp only [dayFloor, msPerDay]
      omega
    have hdf2 : dayFloor (p.valid_until + 301000) ≤ p.valid_until := by
      simp only [dayFloor, msPerDay]
      omega
    have hap1 : activePermitsFor [p] (p.valid_until + 299000) = [p] := by
      simp [activePermitsFor, hact, hdf1]
    have hap2 : activePermitsFor [p] (p.valid_until + 301000) = [p] := by
      simp [activePermitsFor, hact, hdf2]
    have hc1 : coversNow p (p.valid_until + 299000) = false := by
      simp only [coversNow]
      simp only [Bool.and_eq_false_iff, decide_eq_false_iff_not]
      omega
    have hc2 : coversNow p (p.valid_until + 301000) = false := by
      simp only [coversNow]
      simp only [Bool.and_eq_false_iff, decide_eq_false_iff_not]
      omega
    have hg1 : isWithinGracePeriod p.valid_from p.valid_until (p.valid_until + 299000) = true := by
      simp only [isWithinGracePeriod, graceMs]
      simp only [Bool.and_eq_true, decide_eq_true_eq]
      omega
    have hg2 : isWithinGracePeriod p.valid_from p.valid_until (p.valid_until + 301000) = false := by
      simp only [isWithinGracePeriod, graceMs]
      simp only [Bool.and_eq_false_iff, decide_eq_false_iff_not]
      omega
    refine ⟨?_, ?_, ?_⟩
    · unfold lookupResolve
      rw [hap1]
      simp [resolveStatus, List.find?_cons, hc1, hg1]
    · unfold lookupResolve
      rw [hap1]
      simp [resolveStatus, List.find?_cons, hc1, hg1]
    · unfold lookupResolve
      rw [hap2]
      simp [resolveStatus, List.find?_cons, hc2, hg2]

def c2P : Permit :=
  { id := "p3", permit_number := "PM3", permit_request_id := "r3", tenant_id := "t1",
    vehicle_id := "v1", permit_type_id := "guest", valid_from := 10 * 86400000,
    valid_until := 20 * 86400000, is_active := true }

/-- Witness for C2 at a concrete permit and instants. -/
theorem C2_grace_boundary_witness :
    (isWithinGracePeriod 0 1000 1200 = true ↔ 0 - graceMs ≤ 1200 ∧ 1200 ≤ 1000 + graceMs) ∧
    ((lookupResolve [c2P] (c2P.valid_until + 299000)).status = CurrentStatus.grace_period ∧
      (lookupResolve [c2P] (c2P.valid_until + 299000)).gracePeriodExpires =
        some (c2P.valid_until + graceMs) ∧
      (lookupResolve [c2P] (c2P.valid_until + 301000)).status = CurrentStatus.expired) :=
  ⟨C2_grace_boundary.1 0 1000 1200,
   C2_grace_boundary.2 c2P (by decide) (by decide) (by decide)⟩

/-! ## Inversion lemmas for the enforcement lookup -/

/-- The fixed response of the unregistered-plate early return
(index.ts:877-899). -/
def unregisteredResult (plate : String) : EnforcementLookupResult :=
  { license_plate := plate, is_registered := false, active_permits := [],
    context := { recent_violations := [], recent_warnings := [],
                 is_repeat_offender := false, violation_count_30_days := 0,
                 last_violation_date := Option.none, grace_period_active := false,
                 grace_period_expires := Option.none },
    current_status := .no_permit, recommended_action := .ticket }

theorem lookup_registered_inv (st : Store) (plateRaw stateRaw : String) (now : Int)
    (r : EnforcementLookupResult)
    (h : enforcementLookup st plateRaw stateRaw now = Except.ok r)
    (hreg : r.is_registered = true) :
    ∃ v ∈ st.vehicles,
      r.active_permits =
        activePermitsFor (st.permits.filter (fun p => p.vehicle_id == v.id)) now ∧
      r.current_status = (resolveStatus r.active_permits now).status ∧
      r.context.grace_period_active = (resolveStatus r.active_permits now).gracePeriodActive ∧
      r.context.grace_period_expires = (resolveStatus r.active_permits now).gracePeriodExpires ∧
      r.context.recent_warnings =
        recentWarningsFor st.warnings (toUpperStr plateRaw) (toUpperStr stateRaw) now ∧
      r.context.violation_count_30_days =
        (recentViolationsFor st.violations (toUpperStr plateRaw) (toUpperStr stateRaw) now).length ∧
      r.context.is_repeat_offender = decide (3 ≤ r.context.violation_count_30_days) ∧
      r.recommended_action = recommendedActionFor r.current_status
        r.context.is_repeat_offender (decide (0 < r.context.recent_warnings.length)) := by
  simp only [enforcementLookup] at h
  cases hB : validateLicensePlate (toUpperStr plateRaw) (toUpperStr stateRaw) with
  | false =>
    rw [hB] at h
    simp at h
  | true =>
    rw [hB] at h
    simp only [Bool.not_true, Bool.false_eq_true, if_false] at h
    rcases hv : st.vehicles.find? (fun v =>
        v.license_plate == toUpperStr plateRaw && v.state_province == toUpperStr stateRaw &&
        st.tenants.any (fun t => t.id == v.tenant_id && t.is_active)) with _ | v
    · rw [hv] at h
      injection h with h2
      rw [← h2] at hreg
      simp at hreg
    · rw [hv] at h
      injection h with h2
      subst h2
      exact ⟨v, List.mem_of_find?_eq_some hv, rfl, rfl, rfl, rfl, rfl, rfl, rfl, rfl⟩

theorem lookup_unregistered_inv (st : Store) (plateRaw stateRaw : String) (now : Int)
    (r : EnforcementLookupResult)
    (h : enforcementLookup st plateRaw stateRaw now = Except.ok r)
    (hreg : r.is_registered = false) :
    r = unregisteredResult (toUpperStr plateRaw) := by
  simp only [enforcementLookup] at h
  cases hB : validateLicensePlate (toUpperStr plateRaw) (toUpperStr stateRaw) with
  | false =>
    rw [hB] at h
    simp at h
  | true =>
    rw [hB] at h
    simp only [Bool.not_true, Bool.false_eq_true, if_false] at h
    rcases hv : st.vehicles.find? (fun v =>
        v.license_plate == toUpperStr plateRaw && v.state_province == toUpperStr stateRaw &&
        st.tenants.any (fun t => t.id == v.tenant_id && t.is_active)) with _ | v
    · rw [hv] at h
      injection h with h2
      rw [← h2]
      rfl
    · rw [hv] at h
      injection h with h2
      rw [← h2] at hreg
      simp at hreg

/-! ## Facts about the status determination -/

theorem resolveStatus_no_permit_iff (l : List Permit) (now : Int) :
    (resolveStatus l now).status = CurrentStatus.no_permit ↔ l = [] := by
  constructor
  · intro hs
    by_contra hne
    have h0 : ¬(l.length = 0) := fun h => hne (List.length_eq_zero.mp h)
    unfold resolveStatus at hs
    rw [if_neg h0] at hs
    rcases hf : l.find? (fun p => coversNow p now) with _ | p
    · rw [hf] at hs
      rcases hg : l.find? (fun p => isWithinGracePeriod p.valid_from p.valid_until now)
        with _ | g
      · rw [hg] at hs
        simp at hs
      · rw [hg] at hs
        simp at hs
    · rw [hf] at hs
      simp at hs
  · intro he
    subst he
    rfl

theorem resolveStatus_expired_of (l : List Permit) (now : Int) (hne : l ≠ [])
    (hcov : ∀ p ∈ l, coversNow p now = false)
    (hgr : ∀ p ∈ l, isWithinGracePeriod p.valid_from p.valid_until now = false) :
    (resolveStatus l now).status = CurrentStatus.expired := by
  have h0 : ¬(l.length = 0) := fun h => hne (List.length_eq_zero.mp h)
  unfold resolveStatus
  rw [if_neg h0]
  rw [List.find?_eq_none.mpr (fun x hx => by simp [hcov x hx])]
  rw [List.find?_eq_none.mpr (fun x hx => by simp [hgr x hx])]

/-! ## C3: expired versus no_permit -/

def c3Tenant : Tenant := { id := "T1", email := "t1@example.com", is_active := true }

def c3Vehicle : Vehicle :=
  { id := "V1", tenant_id := "T1", license_plate := "ABC123", state_province := "CA" }

def c3Permit : Permit :=
  { id := "P1", permit_number := "PM9", permit_request_id := "R1", tenant_id := "T1",
    vehicle_id := "V1", permit_type_id := "guest", valid_from := 0, valid_until := 0,
    is_active := true }

def c3Store : Store :=
  { tenants := [c3Tenant], vehicles := [c3Vehicle], permit_types := [],
    permit_requests := [], permits := [c3Permit], violations := [], warnings := [],
    officers := [], activities := [], offline_actions := [] }

def c3Now : Int := 10 * 86400000

def c3Result : EnforcementLookupResult :=
  { license_plate := "ABC123", is_registered := true, active_permits := [],
    context := { recent_violations := [], recent_warnings := [],
                 is_repeat_offender := false, violation_count_30_days := 0,
                 last_violation_date := Option.none, grace_period_active := false,
                 grace_period_expires := Option.none },
    current_status := CurrentStatus.no_permit, recommended_action := RecAction.warning }

/-- Counterexample to C3: a registered vehicle with a permit on record
(long expired, filtered out by valid_until >= DATE('now')) resolves
no_permit, not expired, contradicting both halves of the claim. -/
theorem C3_counterexample_no_permit :
    enforcementLookup c3Store "ABC123" "CA" c3Now = Except.ok c3Result ∧
    c3Store.permits = [c3Permit] ∧
    c3Permit.vehicle_id = c3Vehicle.id ∧
    coversNow c3Permit c3Now = false ∧
    isWithinGracePeriod c3Permit.valid_from c3Permit.valid_until c3Now = false ∧
    c3Result.current_status = CurrentStatus.no_permit ∧
    CurrentStatus.no_permit ≠ CurrentStatus.expired :=
  ⟨rfl, rfl, rfl, by decide, by decide, rfl, by decide⟩

/-- C3 (amended).  For a registered vehicle, the status is no_permit
exactly when the filtered active-permit list (active, valid_until on or
after the current date) is empty -- even if older permits exist on
record -- and expired when that list is non-empty but no permit in it
is currently valid or within grace. -/
theorem C3_amended_expired_vs_no_permit (st : Store) (plateRaw stateRaw : String)
    (now : Int) (r : EnforcementLookupResult)
    (h : enforcementLookup st plateRaw stateRaw now = Except.ok r)
    (hreg : r.is_registered = true) :
    (r.current_status = CurrentStatus.no_permit ↔ r.active_permits = []) ∧
    (r.active_permits ≠ [] →
      (∀ p ∈ r.active_permits, coversNow p now = false) →
      (∀ p ∈ r.active_permits, isWithinGracePeriod p.valid_from p.valid_until now = false) →
      r.current_status = CurrentStatus.expired) := by
  obtain ⟨v, _, _, hst, _⟩ := lookup_registered_inv st plateRaw stateRaw now r h hreg
  constructor
  · rw [hst]
    exact resolveStatus_no_permit_iff _ _
  · intro hne hcov hgr
    rw [hst]
    exact resolveStatus_expired_of _ _ hne hcov hgr

def c3wPermit : Permit :=
  { id := "P2", permit_number := "PM10", permit_request_id := "R2", tenant_id := "T1",
    vehicle_id := "V1", permit_type_id := "guest", valid_from := 5 * 86400000,
    valid_until := 10 * 86400000, is_active := true }

def c3wStore : Store :=
  { tenants := [c3Tenant], vehicles := [c3Vehicle], permit_types := [],
    permit_requests := [], permits := [c3wPermit], violations := [], warnings := [],
    officers := [], activities := [], offline_actions := [] }

def c3wNow : Int := 10 * 86400000 + 36000000

def c3wResult : EnforcementLookupResult :=
  { license_plate := "ABC123", is_registered := true, active_permits := [c3wPermit],
    context := { recent_violations := [], recent_warnings := [],
                 is_repeat_offender := false, violation_count_30_days := 0,
                 last_violation_date := Option.none, grace_period_active := false,
                 grace_period_expires := Option.none },
    current_status := CurrentStatus.expired, recommended_action := RecAction.warning }

/-- Witness for the amended C3: a permit expired 10 hours ago (same
date) yields expired. -/
theorem C3_amended_expired_vs_no_permit_witness :
    c3wResult.current_status = CurrentStatus.expired :=
  (C3_amended_expired_vs_no_permit c3wStore "ABC123" "CA" c3wNow c3wResult rfl rfl).2
    (by decide) (by decide) (by decide)

/-! ## C4: recommended-action policy -/

def c4Store : Store :=
  { tenants := [], vehicles := [], permit_types := [], permit_requests := [],
    permits := [], violations := [], warnings := [], officers := [], activities := [],
    offline_actions := [] }

/-- Counterexample to C4: an unregistered plate has status no_permit,
zero violations and no warnings, yet receives the hard-coded
recommended action ticket instead of warning. -/
theorem C4_counterexample_unregistered_ticket :
    enforcementLookup c4Store "XYZ789" "CA" 0 = Except.ok (unregisteredResult "XYZ789") ∧
    (unregisteredResult "XYZ789").current_status = CurrentStatus.no_permit ∧
    (unregisteredResult "XYZ789").context.violation_count_30_days < 3 ∧
    (unregisteredResult "XYZ789").context.recent_warnings = [] ∧
    (unregisteredResult "XYZ789").recommended_action = RecAction.ticket ∧
    RecAction.ticket ≠ RecAction.warning :=
  ⟨rfl, rfl, by decide, rfl, rfl, by decide⟩

/-- C4 (amended).  For a registered vehicle the recommended action is
the stated total function of the resolved status, the trailing-30-day
non-voided violation count and the trailing-30-day warnings; an
unregistered plate always receives ticket. -/
theorem C4_amended_action_policy (st : Store) (plateRaw stateRaw : String) (now : Int)
    (r : EnforcementLookupResult)
    (h : enforcementLookup st plateRaw stateRaw now = Except.ok r) :
    (r.is_registered = true →
      (r.current_status = CurrentStatus.authorized → r.recommended_action = RecAction.none) ∧
      (r.current_status = CurrentStatus.grace_period →
        r.recommended_action = RecAction.verify_manually) ∧
      (r.current_status ≠ CurrentStatus.authorized →
        r.current_status ≠ CurrentStatus.grace_period →
        ((3 ≤ r.context.violation_count_30_days ∨ r.context.recent_warnings ≠ []) →
          r.recommended_action = RecAction.ticket) ∧
        (r.context.violation_count_30_days < 3 → r.context.recent_warnings = [] →
          r.recommended_action = RecAction.warning)) ∧
      (r.context.is_repeat_offender = true ↔ 3 ≤ r.context.violation_count_30_days) ∧
      r.context.violation_count_30_days = (st.violations.filter (fun v =>
          v.license_plate == toUpperStr plateRaw && v.state_province == toUpperStr stateRaw &&
          decide (dayFloor (now - 30 * msPerDay) ≤ v.issued_at) &&
          !(v.status == ViolationStatus.voided))).length ∧
      (r.context.recent_warnings = [] ↔ st.warnings.filter (fun w =>
          w.license_plate == toUpperStr plateRaw && w.state_province == toUpperStr stateRaw &&
          decide (dayFloor (now - 30 * msPerDay) ≤ w.issued_at)) = [])) ∧
    (r.is_registered = false → r.recommended_action = RecAction.ticket) := by
  constructor
  · intro hreg
    obtain ⟨v, _, _, _, _, _, hwarn, hcount, hrep, hact⟩ :=
      lookup_registered_inv st plateRaw stateRaw now r h hreg
    refine ⟨?_, ?_, ?_, ?_, ?_, ?_⟩
    · intro hs
      rw [hact, hs]
      rfl
    · intro hs
      rw [hact, hs]
      rfl
    · intro hne1 hne2
      constructor
      · rintro (h3 | hw)
        · rw [hact, hrep]
          simp [recommendedActionFor, hne1, hne2, h3]
        · have hlen : 0 < r.context.recent_warnings.length :=
            List.length_pos.mpr hw
          rw [hact]
          simp [recommendedActionFor, hne1, hne2, hlen]
      · intro h3 hw
        rw [hact, hrep, hw]
        have h3f : ¬(3 ≤ r.context.violation_count_30_days) := by omega
        simp [recommendedActionFor, hne1, hne2, h3f]
    · rw [hrep]
      simp
    · rw [hcount]
      unfold recentViolationsFor
      exact (List.perm_insertionSort violationGE _).length_eq
    · rw [hwarn]
      unfold recentWarningsFor
      rw [← List.length_eq_zero, ← List.length_eq_zero]
      rw [(List.perm_insertionSort warningGE _).length_eq]
  · intro hunreg
    rw [lookup_unregistered_inv st plateRaw stateRaw now r h hunreg]
    rfl

/-- Witness for the amended C4: the registered vehicle of the C3
counterexample (status no_permit, zero violations, no warnings)
receives warning. -/
theorem C4_amended_action_policy_witness :
    c3Result.recommended_action = RecAction.warning :=
  (((C4_amended_action_policy c3Store "ABC123" "CA" c3Now c3Result rfl).1 rfl).2.2.1
    (by decide) (by decide)).2 (by decide) rfl

/-! ## C10: unregistered plates never consult citation history -/

/-- C10.  For any store and any plate with no vehicle row for
(plate, state), the lookup answers the fixed unregistered response:
is_registered false, empty violation and warning lists, zero counts,
is_repeat_offender false -- regardless of the violations and warnings
in storage. -/
theorem C10_unregistered_ignores_history (st : Store) (plateRaw stateRaw : String)
    (now : Int)
    (hval : validateLicensePlate (toUpperStr plateRaw) (toUpperStr stateRaw) = true)
    (hnov : ∀ v ∈ st.vehicles,
      v.license_plate ≠ toUpperStr plateRaw ∨ v.state_province ≠ toUpperStr stateRaw) :
    enforcementLookup st plateRaw stateRaw now =
      Except.ok (unregisteredResult (toUpperStr plateRaw)) := by
  have hfind : st.vehicles.find? (fun v =>
      v.license_plate == toUpperStr plateRaw && v.state_province == toUpperStr stateRaw &&
      st.tenants.any (fun t => t.id == v.tenant_id && t.is_active)) = Option.none := by
    rw [List.find?_eq_none]
    intro v hv hc
    simp only [Bool.and_eq_true, beq_iff_eq] at hc
    rcases hnov v hv with hne | hne
    · exact hne hc.1.1
    · exact hne hc.1.2
  simp only [enforcementLookup, hval, Bool.not_true, Bool.false_eq_true, if_false, hfind]
  rfl

def c10Violation : Violation :=
  { id := "W1", ticket_number := "TK1", license_plate := "ZZZ111", state_province := "CA",
    issued_by := "O1", violation_type := "unauthorized_parking",
    violation_reason := "no permit", location := Option.none,
    gps_latitude := Option.none, gps_longitude := Option.none, fine_amount := Option.none,
    notes := Option.none, status := ViolationStatus.issued, issued_at := 500 }

def c10Warning : Warning :=
  { id := "WA1", warning_number := "WN1", license_plate := "ZZZ111",
    state_province := "CA", issued_by := "O1", warning_type := "first_notice",
    warning_reason := "no permit", issued_at := 600 }

def c10Store : Store :=
  { tenants := [], vehicles := [], permit_types := [], permit_requests := [],
    permits := [], violations := [c10Violation], warnings := [c10Warning],
    officers := [], activities := [], offline_actions := [] }

/-- Witness for C10: stored violations and warnings for the plate do
not leak into the unregistered response. -/
theorem C10_unregistered_ignores_history_witness :
    enforcementLookup c10Store "zzz111" "ca" 1000 =
      Except.ok (unregisteredResult (toUpperStr "zzz111")) :=
  C10_unregistered_ignores_history c10Store "zzz111" "ca" 1000 (by decide) (by decide)

/-! ## C5: duplicate-issuance guard -/

theorem checkDuplicateTicket_iff {l : List Violation} {p s o : String} {now : Int} :
    checkDuplicateTicket l p s o now = true ↔
      ∃ v ∈ l, v.license_plate = p ∧ v.state_province = s ∧ v.issued_by = o ∧
        now - msPerHour < v.issued_at ∧ v.status ≠ ViolationStatus.voided := by
  simp [checkDuplicateTicket, List.any_eq_true, and_assoc]

/-- C5.  For a well-formed ticket request (required fields present,
valid plate and GPS, active officer), creation fails with a Conflict
exactly when a non-voided violation for the same plate, jurisdiction
and officer was issued within the trailing hour; otherwise it
succeeds.  The guard condition names the officer, so it is
officer-scoped, and voided priors do not trigger it. -/
theorem C5_duplicate_guard (st : Store) (b : CreateViolationInput) (now : Int)
    (newId newTicketNumber newActivityId : String)
    (h1 : b.license_plate ≠ "") (h2 : b.state_province ≠ "") (h3 : b.issued_by ≠ "")
    (h4 : b.violation_type ≠ "") (h5 : b.violation_reason ≠ "")
    (hval : validateLicensePlate (toUpperStr b.license_plate) (toUpperStr b.state_province) = true)
    (hgps : validateGPSCoordinates b.gps_latitude b.gps_longitude = true)
    (hoff : st.officers.any (fun o => o.id == b.issued_by && o.is_active) = true) :
    (createTicket st b now newId newTicketNumber newActivityId =
        Except.error ApiError.conflict ↔
      ∃ v ∈ st.violations, v.license_plate = toUpperStr b.license_plate ∧
        v.state_province = toUpperStr b.state_province ∧ v.issued_by = b.issued_by ∧
        now - msPerHour < v.issued_at ∧ v.status ≠ ViolationStatus.voided) ∧
    ((¬ ∃ v ∈ st.violations, v.license_plate = toUpperStr b.license_plate ∧
        v.state_province = toUpperStr b.state_province ∧ v.issued_by = b.issued_by ∧
        now - msPerHour < v.issued_at ∧ v.status ≠ ViolationStatus.voided) →
      ∃ res, createTicket st b now newId newTicketNumber newActivityId = Except.ok res) := by
  by_cases hdup : checkDuplicateTicket st.violations (toUpperStr b.license_plate)
      (toUpperStr b.state_province) b.issued_by now = true
  · have hct : createTicket st b now newId newTicketNumber newActivityId =
        Except.error ApiError.conflict := by
      unfold createTicket
      simp [h1, h2, h3, h4, h5, hval, hgps, hoff, hdup]
    refine ⟨⟨fun _ => checkDuplicateTicket_iff.mp hdup, fun _ => hct⟩, ?_⟩
    intro hno
    exact absurd (checkDuplicateTicket_iff.mp hdup) hno
  · have hdup' : checkDuplicateTicket st.violations (toUpperStr b.license_plate)
        (toUpperStr b.state_province) b.issued_by now = false := by
      simpa using hdup
    constructor
    · constructor
      · intro hc
        unfold createTicket at hc
        simp [h1, h2, h3, h4, h5, hval, hgps, hoff, hdup'] at hc
      · intro hex
        exact absurd (checkDuplicateTicket_iff.mpr hex) hdup
    · intro _
      rcases he : createTicket st b now newId newTicketNumber newActivityId with err | res
      · exfalso
        unfold createTicket at he
        simp [h1, h2, h3, h4, h5, hval, hgps, hoff, hdup'] at he
      · exact ⟨res, rfl⟩

def c5Officer1 : Officer := { id := "O1", is_active := true }

def c5Officer2 : Officer := { id := "O2", is_active := true }

def c5Prior : Violation :=
  { id := "V0", ticket_number := "TK0", license_plate := "ABC123", state_province := "CA",
    issued_by := "O1", violation_type := "unauthorized_parking",
    violation_reason := "no permit", location := Option.none, gps_latitude := Option.none,
    gps_longitude := Option.none, fine_amount := Option.none, notes := Option.none,
    status := ViolationStatus.issued, issued_at := 3000000 }

def c5PriorVoided : Violation :=
  { id := "V0b", ticket_number := "TK0b", license_plate := "ABC123",
    state_province := "CA", issued_by := "O1", violation_type := "unauthorized_parking",
    violation_reason := "no permit", location := Option.none, gps_latitude := Option.none,
    gps_longitude := Option.none, fine_amount := Option.none, notes := Option.none,
    status := ViolationStatus.voided, issued_at := 3000000 }

def c5Store : Store :=
  { tenants := [], vehicles := [], permit_types := [], permit_requests := [],
    permits := [], violations := [c5Prior], warnings := [],
    officers := [c5Officer1, c5Officer2], activities := [], offline_actions := [] }

def c5StoreVoided : Store :=
  { tenants := [], vehicles := [], permit_types := [], permit_requests := [],
    permits := [], violations := [c5PriorVoided], warnings := [],
    officers := [c5Officer1, c5Officer2], activities := [], offline_actions := [] }

def c5In1 : CreateViolationInput :=
  { license_plate := "ABC123", state_province := "CA", issued_by := "O1",
    violation_type := "unauthorized_parking", violation_reason := "no permit",
    location := Option.none, gps_latitude := Option.none, gps_longitude := Option.none,
    fine_amount := Option.none, notes := Option.none }

def c5In2 : CreateViolationInput :=
  { license_plate := "ABC123", state_province := "CA", issued_by := "O2",
    violation_type := "unauthorized_parking", violation_reason := "no permit",
    location := Option.none, gps_latitude := Option.none, gps_longitude := Option.none,
    fine_amount := Option.none, notes := Option.none }

/-- Witness for C5: a same-officer retry within the hour conflicts, a
second officer succeeds, and a same-officer retry after the prior was
voided succeeds. -/
theorem C5_duplicate_guard_witness :
    createTicket c5Store c5In1 3500000 "N1" "T1" "A1" = Except.error ApiError.conflict ∧
    (∃ res, createTicket c5Store c5In2 3500000 "N2" "T2" "A2" = Except.ok res) ∧
    (∃ res, createTicket c5StoreVoided c5In1 3500000 "N3" "T3" "A3" = Except.ok res) :=
  ⟨(C5_duplicate_guard c5Store c5In1 3500000 "N1" "T1" "A1" (by decide) (by decide)
      (by decide) (by decide) (by decide) (by decide) (by decide) (by decide)).1.mpr
      (by decide),
   (C5_duplicate_guard c5Store c5In2 3500000 "N2" "T2" "A2" (by decide) (by decide)
      (by decide) (by decide) (by decide) (by decide) (by decide) (by decide)).2
      (by decide),
   (C5_duplicate_guard c5StoreVoided c5In1 3500000 "N3" "T3" "A3" (by decide) (by decide)
      (by decide) (by decide) (by decide) (by decide) (by decide) (by decide)).2
      (by decide)⟩

/-! ## C6: auto-approval of guest permit requests -/

theorem resolveTenant_permits (s : Store) (e nid : String) :
    (resolveTenant s e nid).2.permits = s.permits := by
  unfold resolveTenant
  split <;> rfl

theorem resolveTenant_permit_requests (s : Store) (e nid : String) :
    (resolveTenant s e nid).2.permit_requests = s.permit_requests := by
  unfold resolveTenant
  split <;> rfl

theorem resolveVehicle_permits (s : Store) (pl stt tid vid : String) :
    (resolveVehicle s pl stt tid vid).2.permits = s.permits := by
  unfold resolveVehicle
  split <;> rfl

theorem resolveVehicle_permit_requests (s : Store) (pl stt tid vid : String) :
    (resolveVehicle s pl stt tid vid).2.permit_requests = s.permit_requests := by
  unfold resolveVehicle
  split <;> rfl

theorem finalizeRequest_guest (st2 : Store) (tenantId vehicleId : String)
    (startDate endDate : Int) (priority : Int) (rid rnum pid pnum : String)
    (hfresh : ∀ p ∈ st2.permits, p.permit_request_id ≠ rid) :
    (finalizeRequest st2 tenantId vehicleId "guest" startDate endDate priority
        rid rnum pid pnum).1.auto_approved = true ∧
    (finalizeRequest st2 tenantId vehicleId "guest" startDate endDate priority
        rid rnum pid pnum).1.permit_request_id = rid ∧
    (∃ req ∈ (finalizeRequest st2 tenantId vehicleId "guest" startDate endDate priority
        rid rnum pid pnum).2.permit_requests,
      req.id = rid ∧ req.status = ReqStatus.approved ∧
      req.requested_start_date = dayFloor startDate ∧
      req.requested_end_date = dayFloor endDate) ∧
    (finalizeRequest st2 tenantId vehicleId "guest" startDate endDate priority
        rid rnum pid pnum).2.permits.countP
      (fun p => p.permit_request_id == rid) = 1 ∧
    (∀ p ∈ (finalizeRequest st2 tenantId vehicleId "guest" startDate endDate priority
        rid rnum pid pnum).2.permits, p.permit_request_id = rid →
      p.valid_from = dayFloor startDate ∧ p.valid_until = dayFloor endDate ∧
      p.is_active = true) := by
  have he : finalizeRequest st2 tenantId vehicleId "guest" startDate endDate priority
      rid rnum pid pnum =
    (({ auto_approved := true, tenant_id := tenantId, vehicle_id := vehicleId,
        permit_request_id := rid } : SubmitResult),
     { st2 with
        permit_requests := (st2.permit_requests ++
          [({ id := rid, request_number := rnum, tenant_id := tenantId,
              vehicle_id := vehicleId, permit_type_id := "guest",
              requested_start_date := dayFloor startDate,
              requested_end_date := dayFloor endDate, status := ReqStatus.pending,
              priority := priority } : PermitRequestRow)]).map
            (fun (r : PermitRequestRow) =>
              if r.id == rid then { r with status := ReqStatus.approved } else r),
        permits := st2.permits ++
          [({ id := pid, permit_number := pnum, permit_request_id := rid,
              tenant_id := tenantId, vehicle_id := vehicleId, permit_type_id := "guest",
              valid_from := dayFloor startDate, valid_until := dayFloor endDate,
              is_active := true } : Permit)] }) := by
    unfold finalizeRequest
    rfl
  rw [he]
  refine ⟨rfl, rfl, ?_, ?_, ?_⟩
  · refine ⟨({ id := rid, request_number := rnum, tenant_id := tenantId,
               vehicle_id := vehicleId, permit_type_id := "guest",
               requested_start_date := dayFloor startDate,
               requested_end_date := dayFloor endDate, status := ReqStatus.approved,
               priority := priority } : PermitRequestRow), ?_, rfl, rfl, rfl, rfl⟩
    apply List.mem_map.mpr
    refine ⟨({ id := rid, request_number := rnum, tenant_id := tenantId,
               vehicle_id := vehicleId, permit_type_id := "guest",
               requested_start_date := dayFloor startDate,
               requested_end_date := dayFloor endDate, status := ReqStatus.pending,
               priority := priority } : PermitRequestRow), ?_, by simp⟩
    exact List.mem_append_right _ (List.mem_singleton.mpr rfl)
  · show List.countP (fun p => p.permit_request_id == rid)
      (st2.permits ++
        [({ id := pid, permit_number := pnum, permit_request_id := rid,
            tenant_id := tenantId, vehicle_id := vehicleId, permit_type_id := "guest",
            valid_from := dayFloor startDate, valid_until := dayFloor endDate,
            is_active := true } : Permit)]) = 1
    rw [List.countP_append]
    rw [List.countP_eq_zero.mpr (fun p hp => by simp [hfresh p hp])]
    simp
  · intro p hp hpr
    rcases List.mem_append.mp hp with hl | hr
    · exact absurd hpr (hfresh p hl)
    · rw [List.mem_singleton.mp hr]
      exact ⟨rfl, rfl, rfl⟩

def c6Store : Store :=
  { tenants := [], vehicles := [], permit_types := [{ id := "guest", is_active := true }],
    permit_requests := [], permits := [], violations := [], warnings := [],
    officers := [], activities := [], offline_actions := [] }

def c6In : CentralizedInput :=
  { first_name := "Ann", last_name := "Bee", email := "ann@example.com",
    license_plate := "ABC123", make := "Make", model := "Model", color := "Blue",
    state_province := "CA", phone := Option.none, unit_number := Option.none,
    building_code := Option.none, full_address := Option.none,
    permit_type_id := some "guest",
    requested_start_date := some (100 * 86400000 + 36000000),
    requested_end_date := some (102 * 86400000), priority := Option.none,
    notes := Option.none }

def c6Now : Int := 100 * 86400000 + 36000000

/-- Counterexample to C6: a guest request whose requested start is
10:00 UTC produces a permit whose valid_from is midnight of that day:
the permit window equals the requested window truncated to dates, not
the requested window itself.  (The submission succeeds and
auto-approves.) -/
theorem C6_counterexample_window_truncated :
    (submitPermitRequest c6Store c6In c6Now "NT" "NV" "NR" "RN" "NP" "PN").toOption.map
        (fun x => (x.1.auto_approved,
          x.2.permits.map (fun p => (p.permit_request_id, p.valid_from)))) =
      some (true, [("NR", 100 * 86400000)]) ∧
    c6In.requested_start_date = some (100 * 86400000 + 36000000) ∧
    (100 * 86400000 : Int) ≠ 100 * 86400000 + 36000000 := by
  refine ⟨?_, rfl, by decide⟩
  rfl

/-- C6 (amended).  A valid submission with the auto-approving guest
type succeeds, reports auto_approved = true, leaves the freshly created
request approved, and inserts exactly one Permit referencing the fresh
request id (the code performs no pre-insert check; uniqueness follows
from the fresh id), whose window is the requested window truncated to
whole UTC days. -/
theorem C6_amended_auto_approval (st : Store) (b : CentralizedInput) (now : Int)
    (tenantNewId vehicleNewId requestNewId requestNumber permitNewId permitNumber : String)
    (hf1 : b.first_name ≠ "") (hf2 : b.last_name ≠ "") (hf3 : b.email ≠ "")
    (hf4 : b.license_plate ≠ "") (hf5 : b.make ≠ "") (hf6 : b.model ≠ "")
    (hf7 : b.color ≠ "") (hf8 : b.state_province ≠ "")
    (hem : emailValid b.email = true)
    (hval : validateLicensePlate (toUpperStr b.license_plate)
      (toUpperStr b.state_province) = true)
    (hguest : b.permit_type_id.getD "guest" = "guest")
    (hstart : ¬(b.requested_start_date.getD now < now - 24 * msPerHour))
    (hend : ¬(b.requested_end_date.getD (now + 24 * msPerHour) ≤
      b.requested_start_date.getD now))
    (htype : st.permit_types.any (fun t => t.id == "guest" && t.is_active) = true)
    (hfresh : ∀ p ∈ st.permits, p.permit_request_id ≠ requestNewId) :
    (∃ y, submitPermitRequest st b now tenantNewId vehicleNewId requestNewId
      requestNumber permitNewId permitNumber = Except.ok y) ∧
    (∀ res st', submitPermitRequest st b now tenantNewId vehicleNewId requestNewId
        requestNumber permitNewId permitNumber = Except.ok (res, st') →
      res.auto_approved = true ∧ res.permit_request_id = requestNewId ∧
      (∃ req ∈ st'.permit_requests, req.id = requestNewId ∧
        req.status = ReqStatus.approved ∧
        req.requested_start_date = dayFloor (b.requested_start_date.getD now) ∧
        req.requested_end_date =
          dayFloor (b.requested_end_date.getD (now + 24 * msPerHour))) ∧
      st'.permits.countP (fun p => p.permit_request_id == requestNewId) = 1 ∧
      (∀ p ∈ st'.permits, p.permit_request_id = requestNewId →
        p.valid_from = dayFloor (b.requested_start_date.getD now) ∧
        p.valid_until = dayFloor (b.requested_end_date.getD (now + 24 * msPerHour)) ∧
        p.is_active = true)) := by
  have htype2 : ¬(∀ x ∈ st.permit_types, x.id = "guest" → x.is_active = false) := by
    simp only [List.any_eq_true, Bool.and_eq_true, beq_iff_eq] at htype
    obtain ⟨t, ht, h1t, h2t⟩ := htype
    intro hall
    rw [hall t ht h1t] at h2t
    simp at h2t
  constructor
  · rcases he : submitPermitRequest st b now tenantNewId vehicleNewId requestNewId
        requestNumber permitNewId permitNumber with err | y
    · exfalso
      unfold submitPermitRequest at he
      simp only [hguest] at he
      simp [hf1, hf2, hf3, hf4, hf5, hf6, hf7, hf8, hem, hval, hstart, hend, htype2] at he
    · exact ⟨y, rfl⟩
  · intro res st' hsub
    unfold submitPermitRequest at hsub
    simp only [hguest] at hsub
    simp [hf1, hf2, hf3, hf4, hf5, hf6, hf7, hf8, hem, hval, hstart, hend, htype2] at hsub
    have hfresh2 : ∀ p ∈ ((resolveVehicle
        (resolveTenant st (toLowerStr b.email) tenantNewId).2
        (toUpperStr b.license_plate) (toUpperStr b.state_province)
        (resolveTenant st (toLowerStr b.email) tenantNewId).1 vehicleNewId).2).permits,
        p.permit_request_id ≠ requestNewId := by
      rw [resolveVehicle_permits, resolveTenant_permits]
      exact hfresh
    obtain ⟨ha, hb, hc, hd, he2⟩ := finalizeRequest_guest
      ((resolveVehicle (resolveTenant st (toLowerStr b.email) tenantNewId).2
        (toUpperStr b.license_plate) (toUpperStr b.state_province)
        (resolveTenant st (toLowerStr b.email) tenantNewId).1 vehicleNewId).2)
      ((resolveTenant st (toLowerStr b.email) tenantNewId).1)
      ((resolveVehicle (resolveTenant st (toLowerStr b.email) tenantNewId).2
        (toUpperStr b.license_plate) (toUpperStr b.state_province)
        (resolveTenant st (toLowerStr b.email) tenantNewId).1 vehicleNewId).1)
      (b.requested_start_date.getD now)
      (b.requested_end_date.getD (now + 24 * msPerHour)) (b.priority.getD 1)
      requestNewId requestNumber permitNewId permitNumber hfresh2
    obtain ⟨h1', h2'⟩ :
        (finalizeRequest ((resolveVehicle
            (resolveTenant st (toLowerStr b.email) tenantNewId).2
            (toUpperStr b.license_plate) (toUpperStr b.state_province)
            (resolveTenant st (toLowerStr b.email) tenantNewId).1 vehicleNewId).2)
          ((resolveTenant st (toLowerStr b.email) tenantNewId).1)
          ((resolveVehicle (resolveTenant st (toLowerStr b.email) tenantNewId).2
            (toUpperStr b.license_plate) (toUpperStr b.state_province)
            (resolveTenant st (toLowerStr b.email) tenantNewId).1 vehicleNewId).1)
          "guest" (b.requested_start_date.getD now)
          (b.requested_end_date.getD (now + 24 * msPerHour)) (b.priority.getD 1)
          requestNewId requestNumber permitNewId permitNumber).1 = res ∧
        (finalizeRequest ((resolveVehicle
            (resolveTenant st (toLowerStr b.email) tenantNewId).2
            (toUpperStr b.license_plate) (toUpperStr b.state_province)
            (resolveTenant st (toLowerStr b.email) tenantNewId).1 vehicleNewId).2)
          ((resolveTenant st (toLowerStr b.email) tenantNewId).1)
          ((resolveVehicle (resolveTenant st (toLowerStr b.email) tenantNewId).2
            (toUpperStr b.license_plate) (toUpperStr b.state_province)
            (resolveTenant st (toLowerStr b.email) tenantNewId).1 vehicleNewId).1)
          "guest" (b.requested_start_date.getD now)
          (b.requested_end_date.getD (now + 24 * msPerHour)) (b.priority.getD 1)
          requestNewId requestNumber permitNewId permitNumber).2 = st' := by
      rw [hsub]
      exact ⟨rfl, rfl⟩
    rw [← h1', ← h2']
    exact ⟨ha, hb, hc, hd, he2⟩

/-- Witness for the amended C6: the concrete guest submission above
succeeds. -/
theorem C6_amended_auto_approval_witness :
    ∃ y, submitPermitRequest c6Store c6In c6Now "NT" "NV" "NR" "RN" "NP" "PN" =
      Except.ok y :=
  (C6_amended_auto_approval c6Store c6In c6Now "NT" "NV" "NR" "RN" "NP" "PN"
    (by decide) (by decide) (by decide) (by decide) (by decide) (by decide)
    (by decide) (by decide) (by decide) (by decide) (by decide) (by decide)
    (by decide) (by decide) (by decide)).1

/-! ## Helper lemmas for the offline reconciliation loop -/

theorem mem_unsyncedBatch {st : Store} {o : String} {a : OfflineAction} :
    a ∈ unsyncedBatch st o ↔
      a ∈ st.offline_actions ∧ a.officer_id = o ∧ a.is_synced = false := by
  simp [unsyncedBatch, List.mem_filter, and_assoc]

/-- A completed switch never touches the offline_actions list. -/
theorem applyAction_offline (s : Store) (a : OfflineAction) {s1 : Store} {ok : Bool}
    (h : applyAction s a = some (s1, ok)) : s1.offline_actions = s.offline_actions := by
  unfold applyAction at h
  split at h
  · simp at h
  · split at h
    · split at h
      · simp at h
      · injection h with h'
        rw [Prod.mk.injEq] at h'
        rw [← h'.1]
    · split at h
      · simp at h
      · injection h with h'
        rw [Prod.mk.injEq] at h'
        rw [← h'.1]
    · split at h
      · simp at h
      · injection h with h'
        rw [Prod.mk.injEq] at h'
        rw [← h'.1]
    · injection h with h'
      rw [Prod.mk.injEq] at h'
      rw [← h'.1]

theorem markSynced_preserves_mem {s : Store} {a : OfflineAction} (aid : String)
    (now : Int) (ha : a ∈ s.offline_actions) (hne : a.id ≠ aid) :
    a ∈ (markSynced s aid now).offline_actions := by
  unfold markSynced
  apply List.mem_map.mpr
  exact ⟨a, ha, by simp [hne]⟩

/-- Every action with identifier `i` in the store is marked synced. -/
def syncedAllWith (s : Store) (i : String) : Prop :=
  ∀ x ∈ s.offline_actions, x.id = i → x.is_synced = true

theorem markSynced_establishes (s : Store) (i : String) (now : Int) :
    syncedAllWith (markSynced s i now) i := by
  intro x hx hid
  unfold markSynced at hx
  obtain ⟨y, hy, hxy⟩ := List.mem_map.mp hx
  by_cases h : (y.id == i) = true
  · rw [if_pos h] at hxy
    rw [← hxy]
  · rw [if_neg h] at hxy
    rw [← hxy] at hid
    exact absurd (by simp [hid]) h

theorem markSynced_preserves_syncedAll (s : Store) (aid i : String) (now : Int)
    (hq : syncedAllWith s i) : syncedAllWith (markSynced s aid now) i := by
  intro x hx hid
  unfold markSynced at hx
  obtain ⟨y, hy, hxy⟩ := List.mem_map.mp hx
  by_cases h : (y.id == aid) = true
  · rw [if_pos h] at hxy
    rw [← hxy]
  · rw [if_neg h] at hxy
    rw [← hxy] at hid ⊢
    exact hq y hy hid

theorem runBatch_preserves_syncedAll (now : Int) (i : String) :
    ∀ (batch : List OfflineAction) (s : Store), syncedAllWith s i →
      syncedAllWith (runBatch now s batch).store i := by
  intro batch
  induction batch with
  | nil =>
    intro s hq
    simpa [runBatch] using hq
  | cons b rest ih =>
    intro s hq
    rcases happ : applyAction s b with _ | p
    · simp only [runBatch, happ]
      exact ih s hq
    · obtain ⟨s1, ok⟩ := p
      simp only [runBatch, happ]
      apply ih
      apply markSynced_preserves_syncedAll
      intro x hx hid
      rw [applyAction_offline s b happ] at hx
      exact hq x hx hid

theorem runBatch_details_length (now : Int) :
    ∀ (batch : List OfflineAction) (s : Store),
      (runBatch now s batch).details.length = batch.length := by
  intro batch
  induction batch with
  | nil =>
    intro s
    rfl
  | cons b rest ih =>
    intro s
    rcases happ : applyAction s b with _ | p
    · simp only [runBatch, happ]
      simp [ih]
    · obtain ⟨s1, ok⟩ := p
      simp only [runBatch, happ]
      simp [ih]

theorem runBatch_parse_fail_reported (now : Int) :
    ∀ (batch : List OfflineAction) (s : Store) (a : OfflineAction), a ∈ batch →
      a.action_data = Option.none →
      ∃ e ∈ (runBatch now s batch).details, e.action_id = a.id ∧ e.ok = false := by
  intro batch
  induction batch with
  | nil =>
    intro s a ha
    simp at ha
  | cons b rest ih =>
    intro s a ha hdata
    rcases List.mem_cons.mp ha with rfl | hat
    · have happ : applyAction s a = Option.none := by
        unfold applyAction
        rw [hdata]

      simp only [runBatch, happ]
      exact ⟨{ action_id := a.id, action_type := a.action_type, ok := false },
        List.mem_cons_self _ _, rfl, rfl⟩
    · rcases happ : applyAction s b with _ | p
      · simp only [runBatch, happ]
        obtain ⟨e, he, h1, h2⟩ := ih s a hat hdata
        exact ⟨e, List.mem_cons_of_mem _ he, h1, h2⟩
      · obtain ⟨s1, ok⟩ := p
        simp only [runBatch, happ]
        obtain ⟨e, he, h1, h2⟩ := ih (markSynced s1 b.id now) a hat hdata
        exact ⟨e, List.mem_cons_of_mem _ he, h1, h2⟩

theorem runBatch_preserves_failing (now : Int) :
    ∀ (batch : List OfflineAction) (s : Store) (a : OfflineAction),
      a ∈ s.offline_actions →
      (∀ b ∈ batch, b.id = a.id → b.action_data = Option.none) →
      a ∈ (runBatch now s batch).store.offline_actions := by
  intro batch
  induction batch with
  | nil =>
    intro s a ha _
    simpa [runBatch] using ha
  | cons b rest ih =>
    intro s a ha hall
    rcases happ : applyAction s b with _ | p
    · simp only [runBatch, happ]
      exact ih s a ha (fun c hc => hall c (List.mem_cons_of_mem _ hc))
    · obtain ⟨s1, ok⟩ := p
      simp only [runBatch, happ]
      have hbid : b.id ≠ a.id := by
        intro heq
        have hdn := hall b (List.mem_cons_self _ _) heq
        unfold applyAction at happ
        rw [hdn] at happ
        simp at happ
      have ha1 : a ∈ s1.offline_actions := by
        rw [applyAction_offline s b happ]
        exact ha
      have ha2 : a ∈ (markSynced s1 b.id now).offline_actions :=
        markSynced_preserves_mem b.id now ha1 (fun hh => hbid hh.symm)
      exact ih (markSynced s1 b.id now) a ha2
        (fun c hc => hall c (List.mem_cons_of_mem _ hc))

theorem runBatch_unknown_type (now : Int) :
    ∀ (batch : List OfflineAction) (s : Store) (a : OfflineAction), a ∈ batch →
      (∃ d, a.action_data = some d) →
      a.action_type ≠ "ticket" → a.action_type ≠ "warning" → a.action_type ≠ "scan" →
      (∃ e ∈ (runBatch now s batch).details, e.action_id = a.id ∧ e.ok = true) ∧
      syncedAllWith (runBatch now s batch).store a.id ∧
      1 ≤ (runBatch now s batch).error_count := by
  intro batch
  induction batch with
  | nil =>
    intro s a ha
    simp at ha
  | cons b rest ih =>
    intro s a ha hd h1 h2 h3
    rcases List.mem_cons.mp ha with rfl | hat
    · obtain ⟨d, hd'⟩ := hd
      have happ : applyAction s a = some (s, false) := by
        unfold applyAction
        rw [hd']
        split
        · rename_i heq
          exact absurd heq (by simp)
        · split
          · rename_i heq
            exact absurd heq h1
          · rename_i heq
            exact absurd heq h2
          · rename_i heq
            exact absurd heq h3
          · rfl
      simp only [runBatch, happ]
      refine ⟨⟨{ action_id := a.id, action_type := a.action_type, ok := true },
        List.mem_cons_self _ _, rfl, rfl⟩, ?_, ?_⟩
      · exact runBatch_preserves_syncedAll now a.id rest _
          (markSynced_establishes s a.id now)
      · simp
    · rcases happ : applyAction s b with _ | p
      · simp only [runBatch, happ]
        obtain ⟨⟨e, he, he1, he2⟩, hsy, hec⟩ := ih s a hat hd h1 h2 h3
        exact ⟨⟨e, List.mem_cons_of_mem _ he, he1, he2⟩, hsy, le_trans hec (by omega)⟩
      · obtain ⟨s1, ok⟩ := p
        simp only [runBatch, happ]
        obtain ⟨⟨e, he, he1, he2⟩, hsy, hec⟩ :=
          ih (markSynced s1 b.id now) a hat hd h1 h2 h3
        exact ⟨⟨e, List.mem_cons_of_mem _ he, he1, he2⟩, hsy, le_trans hec (by omega)⟩

/-- The row inserted by the ticket branch of the reconciliation loop. -/
def syncTicketRow (a : OfflineAction) (d : ActionData) : Violation :=
  { id := d.id, ticket_number := d.ticket_number, license_plate := d.license_plate,
    state_province := d.state_province, issued_by := d.issued_by,
    violation_type := d.violation_type, violation_reason := d.violation_reason,
    location := d.location, gps_latitude := d.gps_latitude,
    gps_longitude := d.gps_longitude, fine_amount := d.fine_amount, notes := d.notes,
    status := .issued, issued_at := a.performed_at }

theorem applyAction_ticket_fresh (s : Store) (a : OfflineAction) (d : ActionData)
    (htype : a.action_type = "ticket") (hdata : a.action_data = some d)
    (hfresh : (s.violations.any (fun v => v.id == d.id)) = false) :
    applyAction s a =
      some ({ s with violations := syncTicketRow a d :: s.violations }, true) := by
  unfold applyAction
  rw [hdata, htype]
  simp [hfresh, syncTicketRow]

theorem applyAction_ticket_dup (s : Store) (a : OfflineAction) (d : ActionData)
    (htype : a.action_type = "ticket") (hdata : a.action_data = some d)
    (hdup : (s.violations.any (fun v => v.id == d.id)) = true) :
    applyAction s a = Option.none := by
  unfold applyAction
  rw [hdata, htype]
  simp [hdup]

theorem runBatch_single_ticket (now : Int) (s : Store) (a : OfflineAction)
    (d : ActionData) (htype : a.action_type = "ticket") (hdata : a.action_data = some d)
    (hfresh : (s.violations.any (fun v => v.id == d.id)) = false) :
    runBatch now s [a] =
      { store := markSynced { s with violations := syncTicketRow a d :: s.violations }
          a.id now,
        details := [{ action_id := a.id, action_type := a.action_type, ok := true }],
        success_count := 1, error_count := 0 } := by
  simp only [runBatch, applyAction_ticket_fresh s a d htype hdata hfresh]
  rfl

theorem runBatch_single_ticket_dup (now : Int) (s : Store) (a : OfflineAction)
    (d : ActionData) (htype : a.action_type = "ticket") (hdata : a.action_data = some d)
    (hdup : (s.violations.any (fun v => v.id == d.id)) = true) :
    runBatch now s [a] =
      { store := s,
        details := [{ action_id := a.id, action_type := a.action_type, ok := false }],
        success_count := 0, error_count := 1 } := by
  simp only [runBatch, applyAction_ticket_dup s a d htype hdata hdup]

/-! ## C7: reconciliation versus the live ticket logic -/

def c7Data : ActionData :=
  { id := "V2", ticket_number := "TK2", warning_number := "", license_plate := "ABC123",
    state_province := "CA", issued_by := "O1", officer_id := "O1",
    violation_type := "unauthorized_parking", violation_reason := "no permit",
    warning_type := "", warning_reason := "", location := Option.none,
    gps_latitude := Option.none, gps_longitude := Option.none,
    fine_amount := Option.none, notes := Option.none, result := Option.none }

def c7Action : OfflineAction :=
  { id := "A1", officer_id := "O1", action_type := "ticket", action_data := some c7Data,
    performed_at := 3200000, is_synced := false, synced_at := Option.none }

def c7Store : Store :=
  { tenants := [], vehicles := [], permit_types := [], permit_requests := [],
    permits := [], violations := [c5Prior], warnings := [],
    officers := [c5Officer1, c5Officer2], activities := [],
    offline_actions := [c7Action] }

/-- Counterexample to C7: with a same-officer non-voided ticket for the
same plate in the trailing hour, the live endpoint conflicts, but
reconciliation inserts a second Violation and reports success -- the
sync branch does not apply the live create-ticket logic. -/
theorem C7_counterexample_no_guard_in_sync :
    createTicket c7Store c5In1 3500000 "N9" "T9" "A9" = Except.error ApiError.conflict ∧
    (processSync c7Store "O1" 3500000).2.success_count = 1 ∧
    (processSync c7Store "O1" 3500000).1.violations.length = 2 :=
  ⟨rfl, rfl, rfl⟩

/-- C7 (amended).  The ticket branch of reconciliation performs a
direct insert: it uses the caller-assigned payload id as the Violation
id and the action's performedAt as issued_at, without the live
endpoint's validation or duplicate guard; the action is marked synced,
and when a violation with the payload id already exists the insert
throws instead of creating a second row. -/
theorem C7_amended_sync_direct_insert (st : Store) (officerId : String) (now : Int)
    (a : OfflineAction) (d : ActionData)
    (hbatch : unsyncedBatch st officerId = [a])
    (htype : a.action_type = "ticket") (hdata : a.action_data = some d) :
    ((st.violations.any (fun v => v.id == d.id)) = false →
      (∃ v ∈ (processSync st officerId now).1.violations, v.id = d.id ∧
        v.issued_at = a.performed_at ∧ v.license_plate = d.license_plate ∧
        v.state_province = d.state_province ∧ v.issued_by = d.issued_by) ∧
      (processSync st officerId now).2.success_count = 1 ∧
      (∀ x ∈ (processSync st officerId now).1.offline_actions,
        x.id = a.id → x.is_synced = true)) ∧
    ((st.violations.any (fun v => v.id == d.id)) = true →
      (processSync st officerId now).1.violations = st.violations ∧
      (processSync st officerId now).2.error_count = 1) := by
  have hps : processSync st officerId now =
      ((runBatch now st [a]).store,
       { total_processed := 1,
         success_count := (runBatch now st [a]).success_count,
         error_count := (runBatch now st [a]).error_count,
         details := (runBatch now st [a]).details }) := by
    unfold processSync
    rw [hbatch]
    rfl
  constructor
  · intro hfresh
    rw [hps, runBatch_single_ticket now st a d htype hdata hfresh]
    refine ⟨⟨syncTicketRow a d, List.mem_cons_self _ _, rfl, rfl, rfl, rfl, rfl⟩,
      rfl, ?_⟩
    exact markSynced_establishes _ a.id now
  · intro hdup
    rw [hps, runBatch_single_ticket_dup now st a d htype hdata hdup]
    exact ⟨rfl, rfl⟩

def c7wStore : Store :=
  { tenants := [], vehicles := [], permit_types := [], permit_requests := [],
    permits := [], violations := [], warnings := [],
    officers := [c5Officer1, c5Officer2], activities := [],
    offline_actions := [c7Action] }

/-- Witness for the amended C7 at a concrete fresh store. -/
theorem C7_amended_sync_direct_insert_witness :
    (∃ v ∈ (processSync c7wStore "O1" 3500000).1.violations, v.id = c7Data.id ∧
      v.issued_at = c7Action.performed_at ∧ v.license_plate = c7Data.license_plate ∧
      v.state_province = c7Data.state_province ∧ v.issued_by = c7Data.issued_by) ∧
    (processSync c7wStore "O1" 3500000).2.success_count = 1 ∧
    (∀ x ∈ (processSync c7wStore "O1" 3500000).1.offline_actions,
      x.id = c7Action.id → x.is_synced = true) :=
  (C7_amended_sync_direct_insert c7wStore "O1" 3500000 c7Action c7Data
    (by decide) rfl rfl).1 (by decide)

/-! ## C8: per-action failure handling -/

def c8Data : ActionData :=
  { id := "X1", ticket_number := "", warning_number := "", license_plate := "ABC123",
    state_province := "CA", issued_by := "O1", officer_id := "O1",
    violation_type := "", violation_reason := "", warning_type := "",
    warning_reason := "", location := Option.none, gps_latitude := Option.none,
    gps_longitude := Option.none, fine_amount := Option.none, notes := Option.none,
    result := Option.none }

def c8Action : OfflineAction :=
  { id := "A8", officer_id := "O1", action_type := "patrol", action_data := some c8Data,
    performed_at := 100, is_synced := false, synced_at := Option.none }

def c8Store : Store :=
  { tenants := [], vehicles := [], permit_types := [], permit_requests := [],
    permits := [], violations := [], warnings := [], officers := [], activities := [],
    offline_actions := [c8Action] }

/-- Counterexample to C8: an action of unknown type 'patrol' is counted
as a failure (error_count = 1) yet is marked synced and even listed
with status success in the per-action details -- it does not remain
eligible for a future attempt. -/
theorem C8_counterexample_failure_marked_synced :
    (processSync c8Store "O1" 999).2.error_count = 1 ∧
    (processSync c8Store "O1" 999).2.details =
      [{ action_id := "A8", action_type := "patrol", ok := true }] ∧
    (∀ x ∈ (processSync c8Store "O1" 999).1.offline_actions, x.is_synced = true) :=
  ⟨rfl, rfl, by decide⟩

/-- C8 (amended).  Every unsynced action yields exactly one entry in
the result details (the queue always continues); an action whose
processing throws (unparseable payload) is reported failed and, given
unique action ids, left unsynced; but an action of unknown type is
counted as an error while being marked synced and reported as
success. -/
theorem C8_amended_per_action_failures (st : Store) (officerId : String) (now : Int) :
    (processSync st officerId now).2.details.length =
      (unsyncedBatch st officerId).length ∧
    (∀ a ∈ unsyncedBatch st officerId, a.action_data = Option.none →
      (∃ e ∈ (processSync st officerId now).2.details,
        e.action_id = a.id ∧ e.ok = false) ∧
      ((∀ x ∈ st.offline_actions, ∀ y ∈ st.offline_actions, x.id = y.id → x = y) →
        a ∈ (processSync st officerId now).1.offline_actions ∧ a.is_synced = false)) ∧
    (∀ a ∈ unsyncedBatch st officerId, a.action_data ≠ Option.none →
      a.action_type ≠ "ticket" → a.action_type ≠ "warning" → a.action_type ≠ "scan" →
      (∃ e ∈ (processSync st officerId now).2.details,
        e.action_id = a.id ∧ e.ok = true) ∧
      (∀ x ∈ (processSync st officerId now).1.offline_actions,
        x.id = a.id → x.is_synced = true) ∧
      1 ≤ (processSync st officerId now).2.error_count) := by
  refine ⟨runBatch_details_length now _ st, ?_, ?_⟩
  · intro a ha hdata
    refine ⟨runBatch_parse_fail_reported now _ st a ha hdata, ?_⟩
    intro huniq
    have hmem := (mem_unsyncedBatch.mp ha).1
    have hsyn := (mem_unsyncedBatch.mp ha).2.2
    refine ⟨?_, hsyn⟩
    apply runBatch_preserves_failing now _ st a hmem
    intro b hb hid
    have hbmem := (mem_unsyncedBatch.mp hb).1
    rw [huniq b hbmem a hmem hid]
    exact hdata
  · intro a ha hdata h1 h2 h3
    have hd : ∃ d, a.action_data = some d := by
      rcases hx : a.action_data with _ | d
      · exact absurd hx hdata
      · exact ⟨d, rfl⟩
    exact runBatch_unknown_type now _ st a ha hd h1 h2 h3

def c8wAction : OfflineAction :=
  { id := "A9", officer_id := "O1", action_type := "ticket",
    action_data := Option.none, performed_at := 50, is_synced := false,
    synced_at := Option.none }

def c8wStore : Store :=
  { tenants := [], vehicles := [], permit_types := [], permit_requests := [],
    permits := [], violations := [], warnings := [], officers := [], activities := [],
    offline_actions := [c8wAction] }

/-- Witness for the amended C8: an unparseable ticket payload is
reported failed and the action stays unsynced. -/
theorem C8_amended_per_action_failures_witness :
    (∃ e ∈ (processSync c8wStore "O1" 777).2.details,
      e.action_id = c8wAction.id ∧ e.ok = false) ∧
    (c8wAction ∈ (processSync c8wStore "O1" 777).1.offline_actions ∧
      c8wAction.is_synced = false) :=
  have h := (C8_amended_per_action_failures c8wStore "O1" 777).2.1 c8wAction
    (by decide) rfl
  ⟨h.1, h.2 (by decide)⟩

theorem unsyncedBatch_eq_nil (s : Store) (o : String)
    (h : ∀ a ∈ s.offline_actions, a.is_synced = true) :
    unsyncedBatch s o = [] := by
  unfold unsyncedBatch
  have hf : s.offline_actions.filter (fun a => a.officer_id == o && !a.is_synced) = [] := by
    rw [List.filter_eq_nil_iff]
    intro a ha
    simp [h a ha]
  rw [hf]
  rfl

theorem processSync_of_empty_batch (s : Store) (o : String) (n : Int)
    (h : unsyncedBatch s o = []) :
    processSync s o n =
      (s, { total_processed := 0, success_count := 0, error_count := 0,
            details := [] }) := by
  unfold processSync
  rw [h]
  rfl

/-! ## C9: synced actions are never re-applied -/

/-- C9.  Reconciliation loads only unsynced actions (so a synced action
is never in the processed batch), and queueing one ticket action then
reconciling twice yields exactly one Violation row with the payload id,
the action marked synced after the first run, and a second run that
processes nothing and leaves the store unchanged. -/
theorem C9_sync_once (st : Store) (officerId : String) (st0 st1 : Store)
    (d : ActionData) (performedAt : Int) (aid : String) (now1 now2 : Int) :
    (∀ a ∈ unsyncedBatch st officerId, a.is_synced = false) ∧
    (∀ a ∈ st.offline_actions, a.is_synced = true → a ∉ unsyncedBatch st officerId) ∧
    (st0.offline_actions = [] →
     (∀ v ∈ st0.violations, v.id ≠ d.id) →
     queueOfflineAction st0 officerId "ticket" (some d) performedAt aid =
       Except.ok (aid, st1) →
     (processSync st1 officerId now1).1.violations.countP
       (fun v => v.id == d.id) = 1 ∧
     (∀ x ∈ (processSync st1 officerId now1).1.offline_actions,
       x.id = aid → x.is_synced = true) ∧
     (processSync (processSync st1 officerId now1).1 officerId now2).2.total_processed
       = 0 ∧
     (processSync (processSync st1 officerId now1).1 officerId now2).1 =
       (processSync st1 officerId now1).1) := by
  refine ⟨?_, ?_, ?_⟩
  · intro a ha
    exact (mem_unsyncedBatch.mp ha).2.2
  · intro a ha hs hmem
    rw [(mem_unsyncedBatch.mp hmem).2.2] at hs
    simp at hs
  · intro hempty hfreshv hq
    have hoid : ¬((officerId == "" || ("ticket" == "" : Bool)) = true) := by
      intro hx
      unfold queueOfflineAction at hq
      rw [if_pos hx] at hq
      simp at hq
    have hst1 : st1 = { st0 with offline_actions :=
        [{ id := aid, officer_id := officerId, action_type := "ticket",
           action_data := some d, performed_at := performedAt, is_synced := false,
           synced_at := Option.none }] } := by
      unfold queueOfflineAction at hq
      rw [if_neg hoid] at hq
      injection hq with h'
      rw [Prod.mk.injEq] at h'
      rw [← h'.2, hempty]
      rfl
    subst hst1
    have hbatch1 : unsyncedBatch { st0 with offline_actions :=
        [{ id := aid, officer_id := officerId, action_type := "ticket",
           action_data := some d, performed_at := performedAt, is_synced := false,
           synced_at := Option.none }] } officerId =
        [{ id := aid, officer_id := officerId, action_type := "ticket",
           action_data := some d, performed_at := performedAt, is_synced := false,
           synced_at := Option.none }] := by
      simp [unsyncedBatch]
    have hfreshB : (({ st0 with offline_actions :=
        [{ id := aid, officer_id := officerId, action_type := "ticket",
           action_data := some d, performed_at := performedAt, is_synced := false,
           synced_at := Option.none }] } : Store).violations.any
          (fun v => v.id == d.id)) = false := by
      rw [List.any_eq_false]
      intro v hv
      simp [hfreshv v hv]
    have hps : processSync { st0 with offline_actions :=
        [{ id := aid, officer_id := officerId, action_type := "ticket",
           action_data := some d, performed_at := performedAt, is_synced := false,
           synced_at := Option.none }] } officerId now1 =
        ((runBatch now1 { st0 with offline_actions :=
            [{ id := aid, officer_id := officerId, action_type := "ticket",
               action_data := some d, performed_at := performedAt, is_synced := false,
               synced_at := Option.none }] }
          [{ id := aid, officer_id := officerId, action_type := "ticket",
             action_data := some d, performed_at := performedAt, is_synced := false,
             synced_at := Option.none }]).store,
         { total_processed := 1,
           success_count := (runBatch now1 { st0 with offline_actions :=
              [{ id := aid, officer_id := officerId, action_type := "ticket",
                 action_data := some d, performed_at := performedAt, is_synced := false,
                 synced_at := Option.none }] }
            [{ id := aid, officer_id := officerId, action_type := "ticket",
               action_data := some d, performed_at := performedAt, is_synced := false,
               synced_at := Option.none }]).success_count,
           error_count := (runBatch now1 { st0 with offline_actions :=
              [{ id := aid, officer_id := officerId, action_type := "ticket",
                 action_data := some d, performed_at := performedAt, is_synced := false,
                 synced_at := Option.none }] }
            [{ id := aid, officer_id := officerId, action_type := "ticket",
               action_data := some d, performed_at := performedAt, is_synced := false,
               synced_at := Option.none }]).error_count,
           details := (runBatch now1 { st0 with offline_actions :=
              [{ id := aid, officer_id := officerId, action_type := "ticket",
                 action_data := some d, performed_at := performedAt, is_synced := false,
                 synced_at := Option.none }] }
            [{ id := aid, officer_id := officerId, action_type := "ticket",
               action_data := some d, performed_at := performedAt, is_synced := false,
               synced_at := Option.none }]).details }) := by
      unfold processSync
      rw [hbatch1]
      rfl
    rw [hps, runBatch_single_ticket now1 _ _ d rfl rfl hfreshB]
    refine ⟨?_, ?_, ?_, ?_⟩
    · show List.countP (fun v => v.id == d.id)
        (syncTicketRow { id := aid, officer_id := officerId, action_type := "ticket",
                         action_data := some d, performed_at := performedAt,
                         is_synced := false,
                         synced_at := Option.none } d :: st0.violations) = 1
      rw [List.countP_cons]
      rw [List.countP_eq_zero.mpr (fun v hv => by simp [hfreshv v hv])]
      simp [syncTicketRow]
    · exact markSynced_establishes _ aid now1
    · rw [processSync_of_empty_batch _ officerId now2
        (unsyncedBatch_eq_nil _ officerId (by simp [markSynced]))]
    · rw [processSync_of_empty_batch _ officerId now2
        (unsyncedBatch_eq_nil _ officerId (by simp [markSynced]))]

def c9Data : ActionData :=
  { id := "V5", ticket_number := "TK5", warning_number := "", license_plate := "QQQ777",
    state_province := "CA", issued_by := "O1", officer_id := "O1",
    violation_type := "unauthorized_parking", violation_reason := "no permit",
    warning_type := "", warning_reason := "", location := Option.none,
    gps_latitude := Option.none, gps_longitude := Option.none,
    fine_amount := Option.none, notes := Option.none, result := Option.none }

def c9Store0 : Store :=
  { tenants := [], vehicles := [], permit_types := [], permit_requests := [],
    permits := [], violations := [], warnings := [], officers := [], activities := [],
    offline_actions := [] }

def c9Store1 : Store :=
  { tenants := [], vehicles := [], permit_types := [], permit_requests := [],
    permits := [], violations := [], warnings := [], officers := [], activities := [],
    offline_actions := [{ id := "A5", officer_id := "O1", action_type := "ticket",
                          action_data := some c9Data, performed_at := 400,
                          is_synced := false, synced_at := Option.none }] }

/-- Witness for C9 at a concrete queue of one ticket action. -/
theorem C9_sync_once_witness :
    (processSync c9Store1 "O1" 1000).1.violations.countP
      (fun v => v.id == c9Data.id) = 1 ∧
    (∀ x ∈ (processSync c9Store1 "O1" 1000).1.offline_actions,
      x.id = "A5" → x.is_synced = true) ∧
    (processSync (processSync c9Store1 "O1" 1000).1 "O1" 2000).2.total_processed = 0 ∧
    (processSync (processSync c9Store1 "O1" 1000).1 "O1" 2000).1 =
      (processSync c9Store1 "O1" 1000).1 :=
  (C9_sync_once c9Store1 "O1" c9Store0 c9Store1 c9Data 400 "A5" 1000 2000).2.2
    rfl (by decide) rfl

end ParkingApp
